import Mathlib

/-! Verification of the nubi AI tool-orchestration core

Shallow embedding of the provider gateway (`backend/app/llm.py`) and the
agentic loop controllers (`backend/app/routes/ai.py`) of the
cognizance-processing/nubi repository, together with proofs settling the
frozen specification claims.

Conventions used throughout:

* Python dictionaries with a fixed key set are Lean structures; a key that
  the source reads with `.get(k, default)` becomes a field with that default
  (`Option` when the default is `None`).
* Python truthiness is made explicit: a string is truthy iff nonempty, a
  list iff nonempty, `None` is falsy, a number iff nonzero.
* External collaborators that the spec excludes from the core (database
  CRUD, query engine, HTTP test endpoint) are parameters of the embedding:
  the loop is proved for every behaviour of those collaborators.
* The gateway is replaced in the loop models by a script
  `Nat → Except String LLMResponse` indexed by the number of calls issued so
  far; `.error e` models `call_llm` raising an exception with text `e`.
-/

namespace Nubi

/-! Generic helpers (Python truthiness, substring test) -/

/-- Truthiness of an optional list (Python: `None` and `[]` are falsy). -/
def optListTruthy : Option (List α) → Bool
  | some (_ :: _) => true
  | _ => false

/-- Truthiness of an optional number (Python: `None` and `0` are falsy). -/
def optNatTruthy : Option Nat → Bool
  | some (_ + 1) => true
  | _ => false

/-- Bool test that `pat` is a prefix-aligned occurrence inside `l` somewhere
(Python `pat in s` on lists of characters). -/
def listHasInfix [BEq α] (pat : List α) : List α → Bool
  | [] => pat.isEmpty
  | x :: xs => pat.isPrefixOf (x :: xs) || listHasInfix pat xs

/-- Python substring test `pat in s`. -/
def strContains (s pat : String) : Bool :=
  listHasInfix pat.toList s.toList

/-! The following char-list reimplementations of string primitives are used
instead of `String.isPrefixOf`, `String.toLower`, `String.trim`,
`String.replace` and `str.split(":")[0]` because the core versions are
position-based and do not evaluate inside the kernel; the semantics is that
of the corresponding Python operation. -/

/-- Python `s.startswith(p)`. -/
def strIsPrefixOf (p s : String) : Bool :=
  p.toList.isPrefixOf s.toList

/-- Python `s.lower()`. -/
def strToLower (s : String) : String :=
  ⟨s.toList.map Char.toLower⟩

/-- Python `s.strip()` (whitespace on both ends). -/
def strTrim (s : String) : String :=
  ⟨(((s.toList.dropWhile Char.isWhitespace).reverse).dropWhile Char.isWhitespace).reverse⟩

/-- Python `s.split(":")[0]`: the prefix up to the first colon. -/
def strUpToColon (s : String) : String :=
  ⟨s.toList.takeWhile fun c => c != ':'⟩

/-- Left-to-right non-overlapping replacement on char lists; `fuel` bounds
the number of positions inspected (instantiated with the list length). -/
def listReplaceAux [BEq α] (pat repl : List α) : Nat → List α → List α
  | _, [] => []
  | 0, l => l
  | fuel + 1, x :: xs =>
    if pat.isPrefixOf (x :: xs) then
      repl ++ listReplaceAux pat repl fuel ((x :: xs).drop pat.length)
    else
      x :: listReplaceAux pat repl fuel xs

/-- Python `s.replace(pat, repl)` for a nonempty `pat` (every pattern used
below is nonempty; an empty pattern leaves the string unchanged). -/
def strReplace (s pat repl : String) : String :=
  if pat.toList.isEmpty then s
  else ⟨listReplaceAux pat.toList repl.toList s.toList.length s.toList⟩

/-! Model registry (`llm.py`: `_NO_TOOLS`, `_make_display_name`,
`_infer_provider`, `get_model_info`, `get_available_models`) -/

/-- `llm.py` `_NO_TOOLS`: models that do not support tool calling. -/
def noToolsModels : List String := ["deepseek-reasoner", "o1-mini", "o1-preview"]

/-- One entry of the model registry (the dicts built by the `_fetch_*`
functions and by `get_model_info`). -/
structure ModelInfo where
  id : String
  provider : String
  name : String
  supports_tools : Bool
  deriving Repr, DecidableEq

/-- `_make_display_name`: the ordered prefix-replacement table. -/
def displayNameReplacements : List (String × String) :=
  [("gemini-", "Gemini "), ("claude-", "Claude "), ("gpt-", "GPT-"),
   ("deepseek-", "DeepSeek "), ("o1-", "O1-"), ("o3-", "O3-"), ("o4-", "O4-")]

/-- `_make_display_name`: the capitalisation substitutions applied in order. -/
def displayNameCaps : List (String × String) :=
  [("-pro", " Pro"), ("-flash", " Flash"), ("-lite", " Lite"),
   ("-mini", " Mini"), ("-haiku", " Haiku"), ("-sonnet", " Sonnet"),
   ("-opus", " Opus"), ("-turbo", " Turbo"), ("4o", "4o")]

/-- First matching prefix replacement (the `for ... break` loop of
`_make_display_name`). -/
def applyFirstPrefixReplacement : List (String × String) → String → String
  | [], n => n
  | (p, r) :: rest, n =>
    if strIsPrefixOf p n then r ++ n.drop p.length
    else applyFirstPrefixReplacement rest n

/-- `_make_display_name(model_id, provider)` (the `provider` argument is
unused in the source as well). -/
def makeDisplayName (model_id : String) (_provider : String) : String :=
  let name := strUpToColon model_id
  let name := applyFirstPrefixReplacement displayNameReplacements name
  let name := displayNameCaps.foldl (fun n (p : String × String) => strReplace n p.1 p.2) name
  strTrim name

/-- `_infer_provider`: map a model id to a provider by prefix. -/
def inferProvider (model : String) : Option String :=
  if strIsPrefixOf "gemini-" model then some "gemini"
  else if strIsPrefixOf "claude-" model then some "anthropic"
  else if strIsPrefixOf "gpt-" model || strIsPrefixOf "o1-" model
       || strIsPrefixOf "o3-" model || strIsPrefixOf "o4-" model then some "openai"
  else if strIsPrefixOf "deepseek-" model then some "deepseek"
  else none

/-- `get_model_info(model)`, parametrised by the list returned by
`get_available_models()` at call time (the cache snapshot). Raising
`ValueError` is modelled by `Except.error`. -/
def getModelInfo (cache : List ModelInfo) (model : String) : Except String ModelInfo :=
  match cache.find? (fun m => m.id == model) with
  | some m => .ok m
  | none =>
    match inferProvider model with
    | some p => .ok ⟨model, p, makeDisplayName model p, !(noToolsModels.contains model)⟩
    | none => .error ("Unknown model: " ++ model)

/-- The module-level `_model_cache` dict. Time is modelled as `Int`
(seconds), matching the comparison done on `time.time()` values. -/
structure ModelCache where
  models : List ModelInfo
  fetched_at : Int
  deriving Repr, DecidableEq

/-- `_CACHE_TTL`. -/
def CACHE_TTL : Int := 3600

/-- One execution of `get_available_models()`, parametrised by the current
time and by what the four `_fetch_*` calls would return (each returns `[]`
on a missing key or any failure). Returns the new cache state and the list
returned to the caller. -/
def getAvailableModelsStep (cache : ModelCache) (now : Int)
    (gem anth oai ds : List ModelInfo) : ModelCache × List ModelInfo :=
  if cache.models ≠ [] ∧ now - cache.fetched_at < CACHE_TTL then
    (cache, cache.models)
  else
    let all_models := gem ++ anth ++ oai ++ ds
    if all_models ≠ [] then ({ models := all_models, fetched_at := now }, all_models)
    else (cache, all_models)

/-! Tool declarations and per-vendor conversion
(`llm.py`: `_gemini_tools_to_openai`, `_gemini_tools_to_anthropic`).
The JSON parameter schema is carried opaquely as `Option String`
(`none` = key absent, so the vendor default object is used). -/

structure FunctionDecl where
  name : String
  description : String := ""
  parameters : Option String := none
  deriving Repr, DecidableEq

/-- One entry of the Gemini-format tool list (a dict with a
`function_declarations` key). -/
structure ToolGroup where
  function_declarations : List FunctionDecl := []
  deriving Repr, DecidableEq

structure OpenAITool where
  toolType : String
  name : String
  description : String
  parameters : Option String
  deriving Repr, DecidableEq

structure AnthropicTool where
  name : String
  description : String
  input_schema : Option String
  deriving Repr, DecidableEq

/-- `_gemini_tools_to_openai`. -/
def geminiToolsToOpenai (gemini_tools : List ToolGroup) : List OpenAITool :=
  gemini_tools.flatMap fun tg =>
    tg.function_declarations.map fun decl =>
      { toolType := "function", name := decl.name,
        description := decl.description, parameters := decl.parameters }

/-- `_gemini_tools_to_anthropic`. -/
def geminiToolsToAnthropic (gemini_tools : List ToolGroup) : List AnthropicTool :=
  gemini_tools.flatMap fun tg =>
    tg.function_declarations.map fun decl =>
      { name := decl.name, description := decl.description,
        input_schema := decl.parameters }

/-! Canonical messages and the unified response type -/

/-- Tool-call arguments: a JSON object carried as key/value pairs (argument
values are opaque strings; no claim inspects them). -/
abbrev Args := List (String × String)

/-- `llm.py` `FunctionCall`. -/
structure FunctionCall where
  name : String
  args : Args := []
  deriving Repr, DecidableEq

/-- The tool-call record the controller stores on an assistant message
(`{"name": fc.name, "args": fc.args, "id": fc.name}`). -/
structure ToolCallTag where
  name : String
  args : Args
  id : String
  deriving Repr, DecidableEq

/-- A per-tool result dictionary (the return value of `_execute_tool`). Keys the
controller reads with `.get` become fields with the read defaults; the rest
of the payload is carried opaquely in `payload`. -/
structure ToolTest where
  success : Option Bool := none
  row_count : Nat := 0
  deriving Repr, DecidableEq

structure ToolResult where
  error : Option String := none
  success : Option Bool := none
  returned_rows : Nat := 0
  truncated : Bool := false
  total_rows : Nat := 0
  row_count : Nat := 0
  test : Option ToolTest := none
  payload : String := ""
  deriving Repr, DecidableEq

/-- Canonical transcript messages (OpenAI-style role dicts, `routes/ai.py`).
The `tool` constructor stores the `ToolResult` itself where the source
stores `json.dumps(result)`; serialisation is not modelled. -/
inductive Message where
  | user (content : String)
  | assistant (content : String)
  | assistantCalls (tool_calls : List ToolCallTag)
  | tool (tool_call_id : String) (name : String) (content : ToolResult)
  deriving Repr, DecidableEq

/-- `llm.py` `LLMResponse`. -/
structure LLMResponse where
  text : Option String := none
  function_calls : Option (List FunctionCall) := none
  finish_reason : String := ""
  input_tokens : Nat := 0
  output_tokens : Nat := 0
  model : String := ""
  provider : String := ""
  deriving Repr, DecidableEq

/-! Vendor request bodies (`_call_gemini` / `_call_anthropic` /
`_call_openai_compat`, body-construction part).

The per-vendor message-format converters (`_messages_to_gemini` etc.) are
orthogonal to every claim and are not modelled: each request carries the
canonical transcript and the system instruction as given. The tools-field
logic is modelled exactly. Credential checks (which raise before any body is
built) are not modelled: the claims concern the body of a request that is
actually issued. -/

structure GeminiRequest where
  contents : List Message
  temperature : Float
  responseMimeType : String := "text/plain"
  systemInstruction : Option String
  tools : Option (List ToolGroup)
  maxOutputTokens : Option Nat
  deriving Repr

structure AnthropicRequest where
  model : String
  messages : List Message
  max_tokens : Nat
  temperature : Float
  system : Option String
  tools : Option (List AnthropicTool)
  deriving Repr

structure OpenAIRequest where
  model : String
  messages : List Message
  system : Option String
  temperature : Float
  max_tokens : Option Nat
  tools : Option (List OpenAITool)
  deriving Repr

/-- `_call_gemini`, payload construction. -/
def geminiRequest (messages : List Message) (system_instruction : String)
    (tools : Option (List ToolGroup)) (temperature : Float)
    (max_tokens : Option Nat) : GeminiRequest :=
  { contents := messages
    temperature := temperature
    systemInstruction := if system_instruction != "" then some system_instruction else none
    tools := if optListTruthy tools then tools else none
    maxOutputTokens := if optNatTruthy max_tokens then max_tokens else none }

/-- `_call_anthropic`, body construction (`anth_tools` is only attached when
truthy, i.e. a nonempty list). -/
def anthropicRequest (model : String) (messages : List Message)
    (system_instruction : String) (tools : Option (List ToolGroup))
    (temperature : Float) (max_tokens : Option Nat) : AnthropicRequest :=
  let anth_tools : Option (List AnthropicTool) :=
    if optListTruthy tools then some (geminiToolsToAnthropic (tools.getD [])) else none
  { model := model
    messages := messages
    max_tokens := if optNatTruthy max_tokens then max_tokens.getD 0 else 8192
    temperature := temperature
    system := if system_instruction != "" then some system_instruction else none
    tools := if optListTruthy anth_tools then anth_tools else none }

/-- `_call_openai_compat`, body construction: tools are attached only when
the converted list is truthy and the model is not in `_NO_TOOLS`. -/
def openaiRequest (model : String) (messages : List Message)
    (system_instruction : String) (tools : Option (List ToolGroup))
    (temperature : Float) (max_tokens : Option Nat) : OpenAIRequest :=
  let oai_tools : Option (List OpenAITool) :=
    if optListTruthy tools then some (geminiToolsToOpenai (tools.getD [])) else none
  { model := model
    messages := messages
    system := if system_instruction != "" then some system_instruction else none
    temperature := temperature
    max_tokens := if optNatTruthy max_tokens then max_tokens else none
    tools := if optListTruthy oai_tools && !(noToolsModels.contains model)
             then oai_tools else none }

/-- The outbound vendor request produced by one `call_llm` invocation. -/
inductive VendorRequest where
  | gemini (r : GeminiRequest)
  | anthropic (r : AnthropicRequest)
  | openaiCompat (provider : String) (r : OpenAIRequest)
  deriving Repr

/-- Whether the outbound body contains a `tools` field. -/
def VendorRequest.hasTools : VendorRequest → Bool
  | .gemini r => r.tools.isSome
  | .anthropic r => r.tools.isSome
  | .openaiCompat _ r => r.tools.isSome

/-- `call_llm`, up to and including the construction of the outbound vendor
request body: resolve the model, force `tools = None` when the resolved info
says tools are unsupported, and dispatch on the provider.
`cache` is the `get_available_models()` snapshot used by `get_model_info`. -/
def callLlmRequest (cache : List ModelInfo) (model : String)
    (messages : List Message) (system_instruction : String)
    (tools : Option (List ToolGroup)) (temperature : Float)
    (max_tokens : Option Nat) : Except String VendorRequest :=
  match getModelInfo cache model with
  | .error e => .error e
  | .ok info =>
    let tools := if !info.supports_tools then none else tools
    if info.provider == "gemini" then
      .ok (.gemini (geminiRequest messages system_instruction tools temperature max_tokens))
    else if info.provider == "anthropic" then
      .ok (.anthropic (anthropicRequest model messages system_instruction tools
        temperature max_tokens))
    else if info.provider == "openai" || info.provider == "deepseek" then
      .ok (.openaiCompat info.provider
        (openaiRequest model messages system_instruction tools temperature max_tokens))
    else
      .error ("Unknown provider: " ++ info.provider)

/-- Whether the request that `call_llm` would issue carries a tools field
(`false` when no request is issued at all). -/
def callIncludesTools (r : Except String VendorRequest) : Bool :=
  match r with
  | .ok req => req.hasTools
  | .error _ => false

/-! Vendor response parsing (`_call_gemini` / `_call_anthropic` /
`_call_openai_compat`, response part). The wire JSON is modelled as typed
records of exactly the components each parser reads; JSON decoding of the
OpenAI `arguments` string is not modelled (arguments arrive decoded). -/

structure GeminiPart where
  functionCall : Option FunctionCall := none
  text : Option String := none
  deriving Repr, DecidableEq

structure GeminiCandidate where
  finishReason : String := ""
  parts : List GeminiPart := []
  deriving Repr, DecidableEq

structure GeminiUsage where
  promptTokenCount : Nat := 0
  candidatesTokenCount : Nat := 0
  deriving Repr, DecidableEq

/-- `_call_gemini`, response parsing: the vendor `finishReason` is passed
through verbatim. -/
def geminiParse (model : String) (candidate : GeminiCandidate)
    (usage : GeminiUsage) : LLMResponse :=
  let func_calls := candidate.parts.filterMap (·.functionCall)
  let text_parts := candidate.parts.filterMap (·.text)
  { text := if text_parts ≠ [] then some (String.join text_parts) else none
    function_calls := if func_calls ≠ [] then some func_calls else none
    finish_reason := candidate.finishReason
    input_tokens := usage.promptTokenCount
    output_tokens := usage.candidatesTokenCount
    model := model
    provider := "gemini" }

inductive AnthropicBlock where
  | text (text : String)
  | toolUse (name : String) (input : Args)
  deriving Repr, DecidableEq

structure AnthropicUsage where
  input_tokens : Nat := 0
  output_tokens : Nat := 0
  deriving Repr, DecidableEq

/-- `_call_anthropic`, stop-reason mapping: `finish = "STOP"`, overridden
for `tool_use` and `max_tokens`. -/
def anthropicFinish (stop : String) : String :=
  if stop == "tool_use" then "TOOL_CALLS"
  else if stop == "max_tokens" then "MAX_TOKENS"
  else "STOP"

/-- `_call_anthropic`, response parsing. -/
def anthropicParse (model : String) (stop : String)
    (content : List AnthropicBlock) (usage : AnthropicUsage) : LLMResponse :=
  let text_parts := content.filterMap fun b =>
    match b with | .text t => some t | .toolUse _ _ => none
  let func_calls := content.filterMap fun b =>
    match b with | .text _ => none | .toolUse n i => some (FunctionCall.mk n i)
  { text := if text_parts ≠ [] then some (String.join text_parts) else none
    function_calls := if func_calls ≠ [] then some func_calls else none
    finish_reason := anthropicFinish stop
    input_tokens := usage.input_tokens
    output_tokens := usage.output_tokens
    model := model
    provider := "anthropic" }

structure OpenAIMessage where
  content : Option String := none
  tool_calls : List (String × Args) := []
  deriving Repr, DecidableEq

structure OpenAIUsage where
  prompt_tokens : Nat := 0
  completion_tokens : Nat := 0
  deriving Repr, DecidableEq

/-- `_call_openai_compat`, finish-reason mapping: `finish = "STOP"`,
overridden for `tool_calls` and `length`. -/
def openaiFinish (oai_finish : String) : String :=
  if oai_finish == "tool_calls" then "TOOL_CALLS"
  else if oai_finish == "length" then "MAX_TOKENS"
  else "STOP"

/-- `_call_openai_compat`, response parsing. -/
def openaiParse (provider model : String) (oai_finish : String)
    (msg : OpenAIMessage) (usage : OpenAIUsage) : LLMResponse :=
  let func_calls := msg.tool_calls.map fun tc => FunctionCall.mk tc.1 tc.2
  { text := msg.content
    function_calls := if func_calls ≠ [] then some func_calls else none
    finish_reason := openaiFinish oai_finish
    input_tokens := usage.prompt_tokens
    output_tokens := usage.completion_tokens
    model := model
    provider := provider }

/-! Tool dispatcher (`routes/ai.py` `_execute_tool`)

The fifteen known tools delegate to CRUD/query-engine collaborators that the
spec excludes from the core; they are abstracted as `impl`, a state-passing
function over an arbitrary collaborator state `σ` (two calls in one turn
share `σ`, which is how sequential effects become observable). The unknown-
name branch is modelled exactly. -/

/-- The tool names `_execute_tool` dispatches on, in source order. -/
def knownToolNames : List String :=
  ["list_datastores", "list_boards", "list_board_queries", "get_query_code",
   "get_board_code", "search_board_code", "search_query_code",
   "create_or_update_query", "delete_query", "get_datastore_schema",
   "run_query", "execute_query_direct", "create_or_update_datastore",
   "test_datastore", "save_keyfile"]

/-- Collaborator behaviour: given its state, a known tool name and the
arguments, produce the result dict and the new collaborator state. -/
abbrev ToolImpl (σ : Type) := σ → String → Args → ToolResult × σ

/-- `_execute_tool(func_name, func_args, ...)`: dispatch to a known tool or
return the structured unknown-function error without touching state. -/
def executeTool (impl : ToolImpl σ) (env : σ) (func_name : String)
    (func_args : Args) : ToolResult × σ :=
  if knownToolNames.contains func_name then impl env func_name func_args
  else ({ error := some ("Unknown function: " ++ func_name) }, env)

/-! Controller events (`routes/ai.py`, the dicts yielded by the
streaming generators; the SSE `data:`-framing in `board_helper_stream` is
transport and not modelled). -/

inductive Event where
  | thinking (content : String)
  | progress (content : String)
  | toolCallStarted (tool : String) (args : Args)
  | toolResultOk (tool : String) (result : ToolResult)
  | toolResultErr (tool : String) (error : String)
  | codeDelta (old_code new_code : String)
  | testResult (success : Bool) (row_count : Nat) (error : String)
  | needsUserInput (message : String)
  | final (code : String) (message : String)
  | error (content : String)
  deriving Repr, DecidableEq

/-- Terminal events: type `final` or type `error`. -/
def Event.isTerminal : Event → Bool
  | .final _ _ => true
  | .error _ => true
  | _ => false

/-- The finish reasons both loop controllers treat as blocked
(`resp.finish_reason in ("SAFETY", "RECITATION", "OTHER")`). -/
def blockedFinish (f : String) : Bool :=
  f == "SAFETY" || f == "RECITATION" || f == "OTHER"

/-! Shared tool loop (`routes/ai.py` `_tool_loop_stream`)

The loop is driven by a gateway script (`Nat → Except String LLMResponse`,
indexed by the number of `call_llm` invocations made so far) and a tool
collaborator `impl`. The `while tool_iteration < max_tool_iterations` loop
is realised by structural recursion on `fuel := maxIter - tool_iteration`.
`_log_usage` only writes to the database (no event), so it has no footprint
in the model. -/

structure TLState (σ : Type) where
  messages : List Message
  anyToolsCalled : Bool := false
  accumulated : String := ""
  continuationCount : Nat := 0
  iteration : Nat := 0
  calls : Nat := 0
  env : σ

/-- Events and transcript entries produced by the
`for fc in resp.function_calls` body of `_tool_loop_stream`, threading the
collaborator state left to right. -/
def tlProcessCalls (impl : ToolImpl σ) : σ → List FunctionCall →
    List Event × List Message × σ
  | env, [] => ([], [], env)
  | env, fc :: rest =>
    let r := executeTool impl env fc.name fc.args
    let result := r.1
    let is_error := result.error.isSome && !(result.success == some true)
    let evs :=
      [Event.toolCallStarted fc.name fc.args]
      ++ (if fc.name == "execute_query_direct" && result.success == some true then
            [Event.progress ("Executed query: " ++ toString result.returned_rows
              ++ " rows returned")]
          else [])
      ++ [if is_error then Event.toolResultErr fc.name (result.error.getD "")
          else Event.toolResultOk fc.name result]
    let rec_ := tlProcessCalls impl r.2 rest
    (evs ++ rec_.1, Message.tool fc.name fc.name result :: rec_.2.1, rec_.2.2)

/-- Outcome of one iteration of the while loop: `done` models a `return`
from the generator, `next` a `continue`. The state is kept on `done` for
bookkeeping (call counts, transcript). -/
inductive TLStep (σ : Type) where
  | done (events : List Event) (st : TLState σ)
  | next (events : List Event) (st : TLState σ)

/-- One iteration of the `_tool_loop_stream` while body. -/
def tlStep (impl : ToolImpl σ) (script : Nat → Except String LLMResponse)
    (maxIter : Nat) (st : TLState σ) : TLStep σ :=
  let st := { st with iteration := st.iteration + 1 }
  match script st.calls with
  | .error e =>
    .done [Event.error ("AI API error: " ++ e)] { st with calls := st.calls + 1 }
  | .ok resp =>
    let st := { st with calls := st.calls + 1 }
    if blockedFinish resp.finish_reason then
      .done [Event.error ("Response was blocked (" ++ resp.finish_reason
        ++ "). Try rephrasing.")] st
    else if optListTruthy resp.function_calls then
      let fcs := resp.function_calls.getD []
      let tc_list := fcs.map fun fc => ToolCallTag.mk fc.name fc.args fc.name
      let pc := tlProcessCalls impl st.env fcs
      .next pc.1
        { st with
          messages := st.messages ++ [Message.assistantCalls tc_list] ++ pc.2.1
          anyToolsCalled := true
          env := pc.2.2 }
    else
      let raw_text := resp.text.getD ""
      if resp.finish_reason == "MAX_TOKENS" then
        if decide (st.iteration < maxIter) then
          .next []
            { st with
              accumulated := st.accumulated ++ raw_text
              continuationCount := st.continuationCount + 1
              messages := st.messages
                ++ [Message.assistant raw_text, Message.user "Continue"] }
        else
          .done [Event.error "Response too long."] st
      else
        let raw_text := if st.accumulated != "" then st.accumulated ++ raw_text
                        else raw_text
        if raw_text == "" then
          if st.anyToolsCalled && decide (st.iteration < maxIter) then
            .next []
              { st with messages := st.messages
                  ++ [Message.user "Provide a brief summary of what was done."] }
          else if !st.anyToolsCalled && st.iteration == 1 then
            .next []
              { st with messages := st.messages
                  ++ [Message.user
                      "Use the available tools to help answer. Then provide a summary."] }
          else
            .done [Event.final "" "No response generated."] st
        else
          .done [Event.final "" (strTrim raw_text)] st

/-- The while loop of `_tool_loop_stream`; when the fuel runs out
(`tool_iteration` has reached `max_tool_iterations`) the post-loop budget
error is emitted. -/
def tlAux (impl : ToolImpl σ) (script : Nat → Except String LLMResponse)
    (maxIter : Nat) : Nat → TLState σ → List Event × TLState σ
  | 0, st =>
    ([Event.error ("Reached maximum iterations (" ++ toString maxIter ++ ").")], st)
  | fuel + 1, st =>
    match tlStep impl script maxIter st with
    | .done evs st' => (evs, st')
    | .next evs st' =>
      let r := tlAux impl script maxIter fuel st'
      (evs ++ r.1, r.2)

/-- `_tool_loop_stream(messages, ..., max_tool_iterations, ...)`: the full
event stream of the shared loop, plus the loop state at termination. -/
def toolLoopRun (impl : ToolImpl σ) (script : Nat → Except String LLMResponse)
    (maxIter : Nat) (messages : List Message) (env : σ) :
    List Event × TLState σ :=
  tlAux impl script maxIter maxIter
    { messages := messages, env := env }

/-! Board-context loop (`routes/ai.py` `board_helper_stream`,
`generate_stream`, board branch)

Parameters beyond the shared-loop ones:
* `code` — the current board code passed by the caller (`""` models `None`/empty);
* `stripMd` — `helpers.strip_markdown_code_block`;
* `validateFn` — `helpers.validate_html` (its result record).
Both helpers are taken as parameters and every theorem below holds for all
of their behaviours, the real ones included. The system-instruction /
prompt assembly before the loop performs no yields and only feeds the
scripted gateway, so it is not modelled; the initial transcript is the
`messages` parameter. -/

structure ValidationResult where
  valid : Bool
  errors : List String := []
  warnings : List String := []
  info : List String := []
  summary : String := ""
  deriving Repr, DecidableEq

structure BState (σ : Type) where
  messages : List Message
  anyToolsCalled : Bool := false
  accumulated : String := ""
  continuationCount : Nat := 0
  iteration : Nat := 0
  calls : Nat := 0
  queryCreated : Bool := false
  editedCode : Option String := none
  env : σ

/-- One entry of `last_tool_results`. -/
structure LastResult where
  tool : String
  result : ToolResult
  deriving Repr, DecidableEq

/-- The zero-rows predicate of the `zero_rows` list comprehension. -/
def zeroRowsHit (r : LastResult) : Bool :=
  (r.tool == "run_query" || r.tool == "create_or_update_query")
  && ((r.result.success == some true && r.result.row_count == 0)
      || (match r.result.test with
          | some t => t.success == some true && t.row_count == 0
          | none => false))

/-- The user message injected when a data-query tool reported zero rows. -/
def zeroRowsWarning : String :=
  "WARNING: The query returned 0 rows. You MUST investigate why: "
  ++ "1) Call get_datastore_schema to check actual table/column names, "
  ++ "2) Try a simple SELECT * FROM dataset.table LIMIT 10, "
  ++ "3) Fix the query with correct names/filters."

/-- The approaching-iteration-limit notice (board and exploration loops). -/
def approachEvents (iter maxIter : Nat) : List Event :=
  if iter == maxIter - 5 then
    [Event.progress ("Approaching iteration limit (" ++ toString iter
      ++ "/" ++ toString maxIter ++ ")...")]
  else []

/-- The progress notice on the first continuation of a truncated reply. -/
def genLongEvents (cc : Nat) : List Event :=
  if cc == 1 then [Event.progress "Generating long response, please wait..."]
  else []

/-- The progress notice after assembling a multi-part reply. -/
def completedEvents (acc : Bool) (contCount : Nat) : List Event :=
  if acc && decide (contCount > 1) then
    [Event.progress ("Completed long response (" ++ toString contCount ++ " parts)")]
  else []

/-- The zero-rows progress notice. -/
def zeroRowsEvents (zero_rows : List LastResult) : List Event :=
  if zero_rows ≠ [] then [Event.progress "Query returned 0 rows - investigating..."]
  else []

/-- The zero-rows instructional user message. -/
def zeroRowsMsgs (zero_rows : List LastResult) : List Message :=
  if zero_rows ≠ [] then [Message.user zeroRowsWarning] else []

/-- The `for fc in resp.function_calls` body of the board loop: events,
transcript entries, whether a `create_or_update_query`/`delete_query`
succeeded, the `last_tool_results` list, and the collaborator state. -/
def bdProcessCalls (impl : ToolImpl σ) : σ → List FunctionCall →
    List Event × List Message × Bool × List LastResult × σ
  | env, [] => ([], [], false, [], env)
  | env, fc :: rest =>
    let r := executeTool impl env fc.name fc.args
    let result := r.1
    let is_error := result.error.isSome && !(result.success == some true)
    let evs :=
      [Event.toolCallStarted fc.name fc.args]
      ++ (if fc.name == "execute_query_direct" && result.success == some true then
            [Event.progress ("Executed query: " ++ toString result.returned_rows
              ++ " rows returned"
              ++ (if result.truncated then
                    " (truncated from " ++ toString result.total_rows ++ " total rows)"
                  else ""))]
          else [])
      ++ [if is_error then Event.toolResultErr fc.name (result.error.getD "")
          else Event.toolResultOk fc.name result]
    let qc := (fc.name == "create_or_update_query" || fc.name == "delete_query")
              && result.success == some true
    let rec_ := bdProcessCalls impl r.2 rest
    (evs ++ rec_.1,
     Message.tool fc.name fc.name result :: rec_.2.1,
     qc || rec_.2.2.1,
     LastResult.mk fc.name result :: rec_.2.2.2.1,
     rec_.2.2.2.2)

/-- Outcome of one board-loop iteration: `done` is a `return` from the
generator, `next` a `continue`, `broke` the `break` that proceeds to the
validation phase. -/
inductive BStep (σ : Type) where
  | done (events : List Event) (st : BState σ)
  | next (events : List Event) (st : BState σ)
  | broke (events : List Event) (st : BState σ)

/-- One iteration of the board-loop while body. -/
def bdStep (impl : ToolImpl σ) (script : Nat → Except String LLMResponse)
    (stripMd : String → String) (maxIter : Nat) (st : BState σ) : BStep σ :=
  let st := { st with iteration := st.iteration + 1 }
  let approach := approachEvents st.iteration maxIter
  match script st.calls with
  | .error e =>
    .done (approach ++ [Event.error ("AI API error: " ++ e)])
      { st with calls := st.calls + 1 }
  | .ok resp =>
    let st := { st with calls := st.calls + 1 }
    if blockedFinish resp.finish_reason then
      .done (approach ++ [Event.error ("Response was blocked (" ++ resp.finish_reason
        ++ "). Try rephrasing.")]) st
    else if optListTruthy resp.function_calls then
      let fcs := resp.function_calls.getD []
      let tc_list := fcs.map fun fc => ToolCallTag.mk fc.name fc.args fc.name
      let pc := bdProcessCalls impl st.env fcs
      let zero_rows := pc.2.2.2.1.filter zeroRowsHit
      .next (approach ++ pc.1 ++ zeroRowsEvents zero_rows)
        { st with
          messages := st.messages ++ [Message.assistantCalls tc_list] ++ pc.2.1
            ++ zeroRowsMsgs zero_rows
          anyToolsCalled := true
          queryCreated := st.queryCreated || pc.2.2.1
          env := pc.2.2.2.2 }
    else
      let raw_text := resp.text.getD ""
      if resp.finish_reason == "MAX_TOKENS" then
        if decide (st.iteration < maxIter) then
          let cc := st.continuationCount + 1
          .next (approach ++ genLongEvents cc)
            { st with
              accumulated := st.accumulated ++ raw_text
              continuationCount := cc
              messages := st.messages
                ++ [Message.assistant raw_text, Message.user "Continue"] }
        else
          .done (approach ++ [Event.error "Response too long and hit iteration limit."]) st
      else
        let acc := st.accumulated != ""
        let raw_text := if acc then st.accumulated ++ raw_text else raw_text
        let completed := completedEvents acc st.continuationCount
        if raw_text == "" then
          if st.anyToolsCalled && decide (st.iteration < maxIter) then
            let nudge :=
              if st.queryCreated then
                "You successfully created/updated a query. Now provide a brief summary."
              else "Continue with the original task. Complete the user\x27s request."
            .next (approach ++ completed ++ [Event.progress "Continuing..."])
              { st with messages := st.messages ++ [Message.user nudge] }
          else if !st.anyToolsCalled && st.iteration == 1 then
            .next (approach ++ completed ++ [Event.progress "Gathering context..."])
              { st with messages := st.messages
                  ++ [Message.user ("Gather context by calling the appropriate tools: "
                      ++ "list_board_queries, get_query_code, etc. Then complete the request.")] }
          else if !st.anyToolsCalled then
            .done (approach ++ completed
              ++ [Event.error "Could not understand your request. Please be more specific."]) st
          else
            .done (approach ++ completed
              ++ [Event.final "" "Tools executed but could not generate a final response."]) st
        else if st.queryCreated then
          .done (approach ++ completed ++ [Event.final "" (strTrim raw_text)]) st
        else
          let edited_code := stripMd (strTrim raw_text)
          let st := { st with editedCode := some edited_code }
          let is_html := edited_code != ""
            && (strContains edited_code "<!DOCTYPE"
                || strContains (strToLower edited_code) "<html")
          let is_explanation := decide (edited_code.length < 100)
            || !(strContains edited_code "<")
          if !is_html || is_explanation then
            if decide (st.iteration < maxIter) then
              .next (approach ++ completed
                  ++ [Event.progress "Received text instead of HTML, requesting code..."])
                { st with messages := st.messages
                    ++ [Message.assistant raw_text,
                        Message.user ("Output ONLY the complete HTML code "
                          ++ "(starting with <!DOCTYPE html>) without explanations.")] }
            else
              .done (approach ++ completed
                ++ [Event.error "AI returned text instead of HTML code."]) st
          else
            .broke (approach ++ completed) st

/-- How the board while loop was left. -/
inductive BWhile (σ : Type) where
  | returned (events : List Event) (st : BState σ)
  | exited (events : List Event) (st : BState σ)
  | broke (events : List Event) (st : BState σ)

/-- The board while loop (fuel = remaining iterations). -/
def bdAux (impl : ToolImpl σ) (script : Nat → Except String LLMResponse)
    (stripMd : String → String) (maxIter : Nat) :
    Nat → BState σ → BWhile σ
  | 0, st => .exited [] st
  | fuel + 1, st =>
    match bdStep impl script stripMd maxIter st with
    | .done evs st' => .returned evs st'
    | .broke evs st' => .broke evs st'
    | .next evs st' =>
      match bdAux impl script stripMd maxIter fuel st' with
      | .returned r st'' => .returned (evs ++ r) st''
      | .exited r st'' => .exited (evs ++ r) st''
      | .broke r st'' => .broke (evs ++ r) st''

/-- The validation-phase events after the loop (source lines 504–528); the
`valid`/invalid branches of the summary yield the same event. -/
def validationTail (code edited_code : String) (v : ValidationResult) : List Event :=
  [Event.progress ("Code generated (" ++ toString edited_code.length ++ " characters)"),
   Event.thinking "Validating code structure...",
   Event.progress "Checking code...",
   Event.progress v.summary]
  ++ v.errors.map (fun e => Event.progress ("  Error: " ++ e))
  ++ v.warnings.map (fun w => Event.progress ("  Warning: " ++ w))
  ++ v.info.map (fun i => Event.progress ("  " ++ i))
  ++ (if code != "" then [Event.codeDelta code edited_code] else [])
  ++ [Event.final edited_code
      ("HTML " ++ (if v.valid then "validated and " else "") ++ "generated!"
        ++ (if !v.warnings.isEmpty then
              "\n\nNote: " ++ toString v.warnings.length ++ " warning(s)."
            else ""))]

/-- The post-loop section (source lines 497–528); `if not edited_code:`
is falsy both for `None` and for the empty string. -/
def bdPostLoop (code : String) (maxIter : Nat)
    (validateFn : String → ValidationResult) (st : BState σ) : List Event :=
  match st.editedCode with
  | none => [Event.error "Failed to generate code"]
  | some edited_code =>
    if edited_code == "" then [Event.error "Failed to generate code"]
    else
      (if decide (st.iteration ≥ maxIter) then
         [Event.progress ("Reached iteration limit (" ++ toString maxIter ++ ").")]
       else [])
      ++ validationTail code edited_code (validateFn edited_code)

/-- `generate_stream`, board branch: the fixed preliminary events, the
while loop, and — when the loop was left by `break` or by exhausting the
condition — the post-loop section. -/
def boardRun (impl : ToolImpl σ) (script : Nat → Except String LLMResponse)
    (stripMd : String → String) (validateFn : String → ValidationResult)
    (maxIter : Nat) (code : String) (messages : List Message) (env : σ) :
    List Event × BState σ :=
  let pre := [Event.thinking "Analyzing your request...",
              Event.progress "Processing your request..."]
  match bdAux impl script stripMd maxIter maxIter { messages := messages, env := env } with
  | .returned evs st => (pre ++ evs, st)
  | .exited evs st => (pre ++ evs ++ bdPostLoop code maxIter validateFn st, st)
  | .broke evs st => (pre ++ evs ++ bdPostLoop code maxIter validateFn st, st)

/-! Exploration loop (`routes/ai.py` `exploration_helper_stream`)

The schema/context fetches, the temporary-test-query creation and the HTTP
test call are external collaborators and are parameters (`ExpEnv`); only
their observable effect on the event stream is modelled. Transcript
assembly is elided here: the gateway is the call-indexed script, so the
prompt strings cannot influence anything observable in the model. Inner
raises (`raise Exception(...)`) are modelled by the `raised` outcome, which
the per-attempt `except` block turns into events. -/

/-- Shape of the datastore row as far as the schema phase branches on it. -/
inductive DsSchema where
  | bigquery (ndatasets : Nat)
  | postgres (nschemas : Nat)
  | other
  deriving Repr, DecidableEq

/-- Outcome of the test phase for one attempt: HTTP 2xx with a row count
and (optionally) a first table row, an HTTP error with a `detail` string,
or an exception anywhere in the testing `try` block. -/
inductive TestOutcome where
  | httpOk (row_count : Nat) (first_row : Option (List (String × String)))
  | httpErr (detail : String)
  | raised (msg : String)
  deriving Repr, DecidableEq

/-- `max_attempts` in `exploration_helper_stream`. -/
def maxAttempts : Nat := 5

/-- The tuple of prefixes a reply must start with to count as code. -/
def codeLikeStarts : List String :=
  ["#", "@", "import", "from", "def", "class", "if", "for", "while", "try",
   "with", "result", "```"]

/-- All collaborator behaviour the exploration stream depends on. -/
structure ExpEnv (σ : Type) where
  impl : ToolImpl σ
  script : Nat → Except String LLMResponse
  stripMd : String → String
  datastoreId : Option String
  queryId : Option String
  boardId : Option String
  code : String
  maxIter : Nat
  /-- the whole schema `try` block: exception text, or the datastore row
  (`none` = row not found) with the branch-relevant counts -/
  schemaFetch : Except String (Option DsSchema)
  /-- the `get_available_datastores()` context block (success contents only
  feed the prompt) -/
  dsList : Except String Unit
  /-- the `get_board_queries(board_id)` context block -/
  boardFetch : Except String Unit
  /-- the query-row context block -/
  queryFetch : Except String Unit
  /-- per attempt: the id of the temporary test query, `none` when no board
  row exists or the insert returned nothing -/
  tempIds : Nat → Option String
  /-- per attempt: what testing the generated code does -/
  testOutcome : Nat → TestOutcome

/-- Schema-fetch phase events (source lines 771–801). -/
def expSchemaEvents (e : ExpEnv σ) : List Event :=
  match e.datastoreId with
  | none => []
  | some _ =>
    [Event.thinking "I need to understand your database schema first...",
     Event.progress "Fetching database schema..."]
    ++ match e.schemaFetch with
       | .error ex => [Event.progress ("Schema fetch failed: " ++ ex)]
       | .ok none => []
       | .ok (some (.bigquery n)) =>
         [Event.progress ("Found " ++ toString n ++ " BigQuery datasets with tables")]
       | .ok (some (.postgres n)) =>
         [Event.progress ("Found " ++ toString n ++ " PostgreSQL schemas")]
       | .ok (some .other) => []

/-- Context-gathering phase events (source lines 803–842): each block only
yields when its collaborator raised. -/
def expContextEvents (e : ExpEnv σ) : List Event :=
  (match e.dsList with
   | .error ex => [Event.progress ("Could not fetch datastores: " ++ ex)]
   | .ok _ => [])
  ++ (match e.boardId, e.boardFetch with
      | some _, .error ex => [Event.progress ("Could not fetch board context: " ++ ex)]
      | _, _ => [])
  ++ (match e.queryId, e.queryFetch with
      | some _, .error ex => [Event.progress ("Could not fetch query info: " ++ ex)]
      | _, _ => [])

/-- Inner code-generation loop state. -/
structure ExpILState (σ : Type) where
  accumulated : String := ""
  continuationCount : Nat := 0
  iteration : Nat := 0
  calls : Nat
  env : σ

/-- Inner-loop outcome: `raised` is an exception reaching the attempt-level
`except`, `code` is the `break` with `generated_code` set. -/
inductive ExpInner (σ : Type) where
  | raised (events : List Event) (msg : String) (calls : Nat) (env : σ)
  | code (events : List Event) (generated : String) (calls : Nat) (env : σ)

/-- One-iteration outcome of the inner loop. -/
inductive ExpIStep (σ : Type) where
  | raised (events : List Event) (msg : String) (st : ExpILState σ)
  | code (events : List Event) (generated : String) (st : ExpILState σ)
  | next (events : List Event) (st : ExpILState σ)

/-- The `for fc in resp.function_calls` body of the exploration inner loop
(this variant of the truncation suffix ends in `" total)"`). -/
def expProcessCalls (impl : ToolImpl σ) : σ → List FunctionCall → List Event × σ
  | env, [] => ([], env)
  | env, fc :: rest =>
    let r := executeTool impl env fc.name fc.args
    let result := r.1
    let is_err := result.error.isSome && !(result.success == some true)
    let evs :=
      [Event.toolCallStarted fc.name fc.args]
      ++ (if fc.name == "execute_query_direct" && result.success == some true then
            [Event.progress ("Executed query: " ++ toString result.returned_rows
              ++ " rows returned"
              ++ (if result.truncated then
                    " (truncated from " ++ toString result.total_rows ++ " total)"
                  else ""))]
          else [])
      ++ [if is_err then Event.toolResultErr fc.name (result.error.getD "")
          else Event.toolResultOk fc.name result]
    let rec_ := expProcessCalls impl r.2 rest
    (evs ++ rec_.1, rec_.2)

/-- One iteration of the inner while body (source lines 879–963). -/
def expStep (e : ExpEnv σ) (st : ExpILState σ) : ExpIStep σ :=
  let st := { st with iteration := st.iteration + 1 }
  let approach := approachEvents st.iteration e.maxIter
  match e.script st.calls with
  | .error ex =>
    .raised approach ("AI API error: " ++ ex) { st with calls := st.calls + 1 }
  | .ok resp =>
    let st := { st with calls := st.calls + 1 }
    if blockedFinish resp.finish_reason then
      .raised approach ("Response was blocked (" ++ resp.finish_reason
        ++ "). Try rephrasing.") st
    else if optListTruthy resp.function_calls then
      let fcs := resp.function_calls.getD []
      let pc := expProcessCalls e.impl st.env fcs
      .next (approach ++ pc.1) { st with env := pc.2 }
    else
      let raw_text := resp.text.getD ""
      if resp.finish_reason == "MAX_TOKENS" then
        if decide (st.iteration < e.maxIter) then
          let cc := st.continuationCount + 1
          .next (approach ++ genLongEvents cc)
            { st with accumulated := st.accumulated ++ raw_text,
                      continuationCount := cc }
        else
          .raised approach "Response too long. Try smaller tasks." st
      else
        let acc := st.accumulated != ""
        let raw_text := if acc then st.accumulated ++ raw_text else raw_text
        let completed := completedEvents acc st.continuationCount
        if strTrim raw_text != "" then
          let stripped := strTrim raw_text
          if !(codeLikeStarts.any fun p => strIsPrefixOf p stripped) then
            .next (approach ++ completed
              ++ [Event.progress "AI returned text instead of code, reprompting..."]) st
          else
            .code (approach ++ completed) (e.stripMd stripped) st
        else if decide (st.iteration < e.maxIter) then
          .next (approach ++ completed
            ++ [Event.progress "No response from AI, reprompting..."]) st
        else
          .raised (approach ++ completed) "Too many iterations without code generation" st

/-- The inner while loop; exhausting the condition without a `break` hits
the `if not generated_code: raise` right after the loop. -/
def expInnerAux (e : ExpEnv σ) : Nat → ExpILState σ → ExpInner σ
  | 0, st => .raised [] "Failed to generate code" st.calls st.env
  | fuel + 1, st =>
    match expStep e st with
    | .raised evs m st' => .raised evs m st'.calls st'.env
    | .code evs g st' => .code evs g st'.calls st'.env
    | .next evs st' =>
      match expInnerAux e fuel st' with
      | .raised r m c en => .raised (evs ++ r) m c en
      | .code r g c en => .code (evs ++ r) g c en

/-- Python joining of the first three key=value pairs with comma and space. -/
def sampleOfRow (row : List (String × String)) : String :=
  String.intercalate ", " ((row.take 3).map fun kv => kv.1 ++ "=" ++ kv.2)

/-- Outcome of one attempt of the outer `for attempt in range(1, 6)` loop:
`finished` is a `return` (or terminal yield sequence), `retry` a `continue`
or a fall-through to the next attempt. -/
inductive ExpAttempt (σ : Type) where
  | finished (events : List Event)
  | retry (events : List Event) (calls : Nat) (env : σ)

/-- One attempt (source lines 848–1068). -/
def expAttemptRun (e : ExpEnv σ) (attempt calls : Nat) (env : σ) : ExpAttempt σ :=
  let head :=
    [Event.thinking (if attempt == 1 then
        "Now I\x27ll write Python code to fulfill your request..."
      else "Let me fix the error and try again..."),
     Event.progress "Generating Python code..."]
  match expInnerAux e e.maxIter { calls := calls, env := env } with
  | .raised evs msg calls' env' =>
    let evs2 := head ++ evs ++ [Event.progress ("Generation error: " ++ msg)]
    if attempt == maxAttempts then
      .finished (evs2
        ++ [Event.needsUserInput ("Error:\n\n```\n" ++ msg
              ++ "\n```\n\nTry a different approach?"),
            Event.error ("Failed after " ++ toString maxAttempts
              ++ " attempts. Last error: " ++ msg)])
    else .retry evs2 calls' env'
  | .code evs generated calls' env' =>
    let evs2 := head ++ evs
      ++ [Event.progress ("Code generated (" ++ toString generated.length
            ++ " characters)"),
          Event.codeDelta e.code generated]
    if e.queryId.isSome || e.datastoreId.isSome then
      let evs3 := evs2
        ++ [Event.thinking "Let me test this code to make sure it works...",
            Event.progress "Testing the generated code..."]
      let creation : List Event × Option String :=
        match e.queryId with
        | some q => ([], some q)
        | none => ([Event.progress "  Creating temporary test query..."], e.tempIds attempt)
      let evs4 := evs3 ++ creation.1
      match creation.2 with
      | none => .retry evs4 calls' env'
      | some _ =>
        match e.testOutcome attempt with
        | .httpOk row_count first_row =>
          .finished (evs4
            ++ [Event.progress ("Test passed! Query returned " ++ toString row_count
                  ++ " rows"),
                Event.testResult true row_count ""]
            ++ (match first_row with
                | some row => [Event.progress ("  Sample: " ++ sampleOfRow row ++ "...")]
                | none => [])
            ++ [Event.final generated ("Code generated and tested"
                  ++ (if attempt == 1 then " on first try" else " after fixing") ++ ".")])
        | .httpErr detail =>
          let evs5 := evs4 ++ [Event.progress ("Test failed: " ++ detail),
                               Event.testResult false 0 detail]
          if attempt == maxAttempts then
            .finished (evs5
              ++ [Event.needsUserInput ("Still failing:\n\n```\n" ++ detail
                    ++ "\n```\n\nHow would you like to proceed?"),
                  Event.final generated ("Code generated but not working yet.\n\nError: "
                    ++ detail.take 200 ++ "...")])
          else .retry evs5 calls' env'
        | .raised msg =>
          let evs5 := evs4 ++ [Event.progress ("Test execution error: " ++ msg),
                               Event.testResult false 0 msg]
          if attempt == maxAttempts then
            .finished (evs5
              ++ [Event.needsUserInput ("Testing failed:\n\n```\n" ++ msg ++ "\n```"),
                  Event.final generated ("Code generated but testing failed.\n\nError: "
                    ++ msg.take 200 ++ "...")])
          else .retry evs5 calls' env'
    else
      .finished (evs2
        ++ [Event.progress "Skipping test (no datastore or query ID)",
            Event.final generated "Code generated (not tested)."])

/-- The outer attempt loop; when the attempts are exhausted without a
`return` the generator simply ends (no further event). -/
def expAttempts (e : ExpEnv σ) : Nat → Nat → Nat → σ → List Event
  | 0, _, _, _ => []
  | remaining + 1, attempt, calls, env =>
    match expAttemptRun e attempt calls env with
    | .finished evs => evs
    | .retry evs calls' env' => evs ++ expAttempts e remaining (attempt + 1) calls' env'

/-- `exploration_helper_stream`: the full event stream. -/
def explorationRun (e : ExpEnv σ) (env : σ) : List Event :=
  expSchemaEvents e ++ expContextEvents e ++ expAttempts e maxAttempts 1 0 env

/-! Auxiliary definitions used by the theorems -/

/-- Prepend one scripted gateway reply in front of a script. -/
def scriptCons (head : Except String LLMResponse)
    (rest : Nat → Except String LLMResponse) : Nat → Except String LLMResponse
  | 0 => head
  | n + 1 => rest n

/-- A collaborator that does nothing (for concrete witnesses). -/
def trivialImpl : ToolImpl Unit := fun env _ _ => ({}, env)

/-- An `error`-typed event. -/
def isErrorEvent : Event → Bool
  | .error _ => true
  | _ => false

/-- No event in the list is of type `final` or `error`. -/
def noTerminal (l : List Event) : Bool :=
  l.all fun ev => !ev.isTerminal

/-- The list is nonempty, its last event is of type `final` or `error`, and
no earlier event is. -/
def endsTerminal (l : List Event) : Prop :=
  ∃ pre e, l = pre ++ [e] ∧ noTerminal pre = true ∧ e.isTerminal = true

/-- The tool-result transcript entries a tool-call turn appends (projection
of `tlProcessCalls`). -/
def tlDispatchMsgs (impl : ToolImpl σ) (env : σ) (fcs : List FunctionCall) :
    List Message :=
  (tlProcessCalls impl env fcs).2.1

/-- The tool-result transcript entries a board tool-call turn appends
(projection of `bdProcessCalls`; identical in shape to the shared loop). -/
def bdDispatchMsgs (impl : ToolImpl σ) (env : σ) (fcs : List FunctionCall) :
    List Message :=
  (bdProcessCalls impl env fcs).2.1

/-- The loop state after one board tool-call turn. -/
def bdToolTurnState (impl : ToolImpl σ) (st : BState σ)
    (fcs : List FunctionCall) : BState σ :=
  let pc := bdProcessCalls impl st.env fcs
  { st with
    messages := st.messages
      ++ [Message.assistantCalls (fcs.map fun fc => ToolCallTag.mk fc.name fc.args fc.name)]
      ++ pc.2.1 ++ zeroRowsMsgs (pc.2.2.2.1.filter zeroRowsHit)
    anyToolsCalled := true
    iteration := st.iteration + 1
    calls := st.calls + 1
    queryCreated := st.queryCreated || pc.2.2.1
    env := pc.2.2.2.2 }

/-- The events one board tool-call turn emits. -/
def bdToolTurnEvents (impl : ToolImpl σ) (maxIter : Nat) (st : BState σ)
    (fcs : List FunctionCall) : List Event :=
  let pc := bdProcessCalls impl st.env fcs
  approachEvents (st.iteration + 1) maxIter ++ pc.1
    ++ zeroRowsEvents (pc.2.2.2.1.filter zeroRowsHit)

/-- A concrete exploration environment: a datastore is selected, no query id
is given, and the `boards` table is empty, so no temporary test query can be
created (`tempIds` always `none`); the model always answers with code. -/
def gapExpEnv : ExpEnv Unit :=
  { impl := trivialImpl
    script := fun _ => .ok { text := some "# q", finish_reason := "STOP" }
    stripMd := id
    datastoreId := some "ds-1"
    queryId := none
    boardId := none
    code := ""
    maxIter := 10
    schemaFetch := .ok none
    dsList := .ok ()
    boardFetch := .ok ()
    queryFetch := .ok ()
    tempIds := fun _ => none
    testOutcome := fun _ => .httpOk 0 none }

/-! Theorems -/

/-- C1: For every invocation of the gateway entry point `call_llm`, if
the info of the resolved model has `supports_tools == false`, the outbound vendor
request body contains no tools field, regardless of the `tools` argument the
caller passed (and of the transcript, temperature and token limit). -/
theorem C1_unsupported_model_never_sent_tools (cache : List ModelInfo)
    (model : String) (messages : List Message) (system_instruction : String)
    (tools : Option (List ToolGroup)) (temperature : Float)
    (max_tokens : Option Nat) (info : ModelInfo)
    (hinfo : getModelInfo cache model = .ok info)
    (hsup : info.supports_tools = false) :
    callIncludesTools (callLlmRequest cache model messages system_instruction
      tools temperature max_tokens) = false := by
  unfold callLlmRequest
  rw [hinfo]
  simp only [hsup, Bool.not_false, if_true]
  split
  · simp [callIncludesTools, VendorRequest.hasTools, geminiRequest, optListTruthy]
  · split
    · simp [callIncludesTools, VendorRequest.hasTools, anthropicRequest, optListTruthy]
    · split
      · simp [callIncludesTools, VendorRequest.hasTools, openaiRequest, optListTruthy]
      · simp [callIncludesTools]

/-- Witness for C1: `o1-mini` resolves (by inference) to a model with
`supports_tools = false`, and the request `call_llm` builds for it has no
tools field even though the caller passed a tool declaration. -/
theorem C1_unsupported_model_never_sent_tools_witness :
    getModelInfo [] "o1-mini"
      = .ok { id := "o1-mini", provider := "openai", name := "O1 Mini",
              supports_tools := false }
    ∧ callIncludesTools (callLlmRequest [] "o1-mini"
        [Message.user "hi"] "sys"
        (some [{ function_declarations := [{ name := "run_query" }] }])
        0.3 none) = false :=
  ⟨rfl, C1_unsupported_model_never_sent_tools [] "o1-mini" [Message.user "hi"]
    "sys" (some [{ function_declarations := [{ name := "run_query" }] }])
    0.3 none _ rfl rfl⟩

/-- C2 counterexample: The claim says every safety/policy block is
mapped to the canonical finish reason `BLOCKED`. It is false: the
OpenAI-compatible parser maps the vendor safety signal `content_filter`
to `STOP` (the catch-all), not to `BLOCKED`. -/
theorem C2_content_filter_is_not_blocked :
    (openaiParse "openai" "gpt-4o" "content_filter"
        { content := some "partial" } {}).finish_reason = "STOP"
    ∧ (openaiParse "openai" "gpt-4o" "content_filter"
        { content := some "partial" } {}).finish_reason ≠ "BLOCKED"
    ∧ (geminiParse "gemini-2.0-flash"
        { finishReason := "SAFETY", parts := [] } {}).finish_reason = "SAFETY" := by
  refine ⟨rfl, ?_, rfl⟩
  decide

/-- C2 amended: No parser ever produces a `BLOCKED` finish reason.
The Anthropic and OpenAI-compatible response parsers classify the vendor
finish reason into `{STOP, TOOL_CALLS, MAX_TOKENS}`, sending every other
vendor value — safety/policy blocks such as the OpenAI `content_filter`
included — to `STOP`; the Gemini parser passes the vendor `finishReason`
through verbatim, so Gemini safety signals surface as `SAFETY`/`RECITATION`
(which the controllers treat as blocked), never as `BLOCKED`. -/
theorem C2_finish_reason_classification :
    (∀ provider model oai_finish msg usage,
      (openaiParse provider model oai_finish msg usage).finish_reason
        = openaiFinish oai_finish)
    ∧ (∀ model stop content usage,
      (anthropicParse model stop content usage).finish_reason = anthropicFinish stop)
    ∧ (∀ model candidate usage,
      (geminiParse model candidate usage).finish_reason = candidate.finishReason)
    ∧ (∀ f, openaiFinish f = "STOP" ∨ openaiFinish f = "TOOL_CALLS"
        ∨ openaiFinish f = "MAX_TOKENS")
    ∧ (∀ f, anthropicFinish f = "STOP" ∨ anthropicFinish f = "TOOL_CALLS"
        ∨ anthropicFinish f = "MAX_TOKENS")
    ∧ (∀ f, openaiFinish f ≠ "BLOCKED")
    ∧ (∀ f, anthropicFinish f ≠ "BLOCKED")
    ∧ openaiFinish "content_filter" = "STOP"
    ∧ anthropicFinish "refusal" = "STOP" := by
  refine ⟨fun _ _ _ _ _ => rfl, fun _ _ _ _ => rfl, fun _ _ _ => rfl,
    ?_, ?_, ?_, ?_, rfl, rfl⟩
  · intro f
    unfold openaiFinish
    split
    · simp
    · split <;> simp
  · intro f
    unfold anthropicFinish
    split
    · simp
    · split <;> simp
  · intro f
    unfold openaiFinish
    split
    · decide
    · split <;> decide
  · intro f
    unfold anthropicFinish
    split
    · decide
    · split <;> decide

/-- C10: `get_available_models` replaces the cached models and
`fetched_at` only when the combined provider fetches returned at least one
model: a non-empty cache stays non-empty, and a refresh in which every
provider fetch came back empty leaves the cache untouched. -/
theorem C10_model_cache_never_emptied (cache : ModelCache) (now : Int)
    (gem anth oai ds : List ModelInfo) (h : cache.models ≠ []) :
    (getAvailableModelsStep cache now gem anth oai ds).1.models ≠ []
    ∧ (gem ++ anth ++ oai ++ ds = [] →
        (getAvailableModelsStep cache now gem anth oai ds).1 = cache) := by
  unfold getAvailableModelsStep
  constructor
  · split
    · exact h
    · dsimp only
      split
      · assumption
      · exact h
  · intro hall
    split
    · rfl
    · dsimp only
      split
      · exact absurd hall ‹_›
      · rfl

/-- Witness for C10: a populated but stale cache survives a refresh in
which every provider fetch failed (returned `[]`). -/
theorem C10_model_cache_never_emptied_witness :
    (⟨[⟨"gemini-2.0-flash", "gemini", "Gemini 2.0 Flash", true⟩], 0⟩ : ModelCache).models ≠ []
    ∧ (getAvailableModelsStep
        ⟨[⟨"gemini-2.0-flash", "gemini", "Gemini 2.0 Flash", true⟩], 0⟩
        999999 [] [] [] []).1.models ≠ [] :=
  ⟨by decide,
   (C10_model_cache_never_emptied
      ⟨[⟨"gemini-2.0-flash", "gemini", "Gemini 2.0 Flash", true⟩], 0⟩
      999999 [] [] [] [] (by decide)).1⟩

/-- C4: A tool call to a name outside the known dispatcher tools does
not raise: `_execute_tool` returns `{"error": "Unknown function: <name>"}`
untouched state; in the shared tool loop and in the board loop alike the
result is appended to the transcript as a tool message and the loop goes on
to the next CALLING turn (here: a second gateway call is issued and the run
ends normally — with its text in the shared loop, through the validation
phase in the board loop). -/
theorem C4_unknown_tool_structured_error {σ : Type} (impl : ToolImpl σ)
    (env : σ) (name : String) (args : Args) (msgs : List Message) (k : Nat)
    (rest : Nat → Except String LLMResponse) (stripMd : String → String)
    (validateFn : String → ValidationResult) (code t2 : String)
    (h : knownToolNames.contains name = false)
    (ht2 : t2 ≠ "")
    (hhtml2 : (stripMd (strTrim t2) != ""
        && (strContains (stripMd (strTrim t2)) "<!DOCTYPE"
            || strContains (strToLower (stripMd (strTrim t2))) "<html")) = true)
    (hexp2 : (decide ((stripMd (strTrim t2)).length < 100)
        || !(strContains (stripMd (strTrim t2)) "<")) = false) :
    executeTool impl env name args
      = ({ error := some ("Unknown function: " ++ name) }, env)
    ∧ toolLoopRun impl
        (scriptCons
          (.ok { finish_reason := "TOOL_CALLS",
                 function_calls := some [{ name := name, args := args }] })
          (scriptCons (.ok { text := some "Done.", finish_reason := "STOP" }) rest))
        (k + 2) msgs env
      = ([Event.toolCallStarted name args,
          Event.toolResultErr name ("Unknown function: " ++ name),
          Event.final "" "Done."],
         { messages := msgs ++ [Message.assistantCalls [⟨name, args, name⟩],
             Message.tool name name { error := some ("Unknown function: " ++ name) }],
           anyToolsCalled := true, accumulated := "", continuationCount := 0,
           iteration := 2, calls := 2, env := env })
    ∧ boardRun impl
        (scriptCons
          (.ok { finish_reason := "TOOL_CALLS",
                 function_calls := some [{ name := name, args := args }] })
          (scriptCons (.ok { text := some t2, finish_reason := "STOP" }) rest))
        stripMd validateFn (k + 8) code msgs env
      = ([Event.thinking "Analyzing your request...",
          Event.progress "Processing your request...",
          Event.toolCallStarted name args,
          Event.toolResultErr name ("Unknown function: " ++ name)]
          ++ validationTail code (stripMd (strTrim t2))
              (validateFn (stripMd (strTrim t2))),
         { messages := msgs ++ [Message.assistantCalls [⟨name, args, name⟩],
             Message.tool name name { error := some ("Unknown function: " ++ name) }],
           anyToolsCalled := true, accumulated := "", continuationCount := 0,
           iteration := 2, calls := 2, queryCreated := false,
           editedCode := some (stripMd (strTrim t2)), env := env }) := by
  have h' : name ∉ knownToolNames := by simpa using h
  have e4 : decide (1 < k + 8) = true := decide_eq_true (by omega)
  have e5 : decide (2 ≥ k + 8) = false := decide_eq_false (by omega)
  have hed2 : stripMd (strTrim t2) ≠ "" := by
    have hh := (Bool.and_eq_true _ _ |>.mp hhtml2).1
    simpa using hh
  refine ⟨?_, ?_, ?_⟩
  · simp [executeTool, h']
  · simp [toolLoopRun, tlAux, tlStep, tlProcessCalls, executeTool, h', scriptCons,
      blockedFinish, optListTruthy]
    rfl
  · simp [boardRun, bdAux, bdStep, bdPostLoop, bdProcessCalls, executeTool, h',
      scriptCons, blockedFinish, optListTruthy, ht2, hhtml2, hexp2, hed2, e4, e5,
      approachEvents, genLongEvents, completedEvents, zeroRowsHit, zeroRowsEvents,
      zeroRowsMsgs]

/-- Witness for C4 at the unknown tool name `bogus_tool`. -/
theorem C4_unknown_tool_structured_error_witness :
    knownToolNames.contains "bogus_tool" = false
    ∧ executeTool trivialImpl () "bogus_tool" [("a", "1")]
        = ({ error := some ("Unknown function: bogus_tool") }, ())
    ∧ toolLoopRun trivialImpl
        (scriptCons
          (.ok { finish_reason := "TOOL_CALLS",
                 function_calls := some [{ name := "bogus_tool", args := [("a", "1")] }] })
          (scriptCons (.ok { text := some "Done.", finish_reason := "STOP" })
            (fun _ => .ok {})))
        200 [] ()
      = ([Event.toolCallStarted "bogus_tool" [("a", "1")],
          Event.toolResultErr "bogus_tool" "Unknown function: bogus_tool",
          Event.final "" "Done."],
         { messages := [Message.assistantCalls [⟨"bogus_tool", [("a", "1")], "bogus_tool"⟩],
             Message.tool "bogus_tool" "bogus_tool"
               { error := some "Unknown function: bogus_tool" }],
           anyToolsCalled := true, accumulated := "", continuationCount := 0,
           iteration := 2, calls := 2, env := () }) := by
  have := C4_unknown_tool_structured_error trivialImpl () "bogus_tool" [("a", "1")]
    [] 198 (fun _ => .ok {}) id (fun _ => { valid := true }) ""
    "<!DOCTYPE html><html><head><title>Board</title></head><body><div class=3>widgets</div></body></html>"
    (by decide) (by decide) (by decide) (by decide)
  exact ⟨by decide, by simpa using this.1, by simpa using this.2.1⟩

/-- C8: On a tool-call turn the controller appends exactly one assistant
message carrying all tool calls of the turn (tagged with the surrogate
id = name) followed by one tool-result message per call; dispatch is
strictly sequential in provider order, so the result of each call is computed in
the collaborator state left by the previous one — in particular, of two
calls in one turn, the second observes the effect of the first. The first
four conjuncts state this for the shared tool loop (`tlStep`), the last
four for the board loop turn (`bdStep`/`bdDispatchMsgs`), whose transcript
additions differ only by the trailing zero-rows nudge message. -/
theorem C8_sequential_tool_dispatch {σ : Type} (impl : ToolImpl σ) :
    (∀ (maxIter : Nat) (st : TLState σ) (c : FunctionCall) (cs : List FunctionCall)
        (txt : Option String),
      tlStep impl
        (fun _ => .ok { finish_reason := "TOOL_CALLS", text := txt,
                        function_calls := some (c :: cs) }) maxIter st
      = .next (tlProcessCalls impl st.env (c :: cs)).1
          { st with
            messages := st.messages
              ++ [Message.assistantCalls
                    ((c :: cs).map fun fc => ⟨fc.name, fc.args, fc.name⟩)]
              ++ tlDispatchMsgs impl st.env (c :: cs)
            anyToolsCalled := true
            iteration := st.iteration + 1
            calls := st.calls + 1
            env := (tlProcessCalls impl st.env (c :: cs)).2.2 })
    ∧ (∀ (env : σ) (c : FunctionCall) (cs : List FunctionCall),
      tlDispatchMsgs impl env (c :: cs)
        = Message.tool c.name c.name (executeTool impl env c.name c.args).1
          :: tlDispatchMsgs impl (executeTool impl env c.name c.args).2 cs)
    ∧ (∀ (env : σ) (fcs : List FunctionCall),
      (tlDispatchMsgs impl env fcs).length = fcs.length)
    ∧ (∀ (env : σ) (c1 c2 : FunctionCall),
      tlDispatchMsgs impl env [c1, c2]
        = [Message.tool c1.name c1.name (executeTool impl env c1.name c1.args).1,
           Message.tool c2.name c2.name
             (executeTool impl (executeTool impl env c1.name c1.args).2
               c2.name c2.args).1])
    ∧ (∀ (stripMd : String → String) (maxIter : Nat) (st : BState σ)
        (c : FunctionCall) (cs : List FunctionCall) (txt : Option String),
      bdStep impl
        (fun _ => .ok { finish_reason := "TOOL_CALLS", text := txt,
                        function_calls := some (c :: cs) }) stripMd maxIter st
      = .next (approachEvents (st.iteration + 1) maxIter
            ++ (bdProcessCalls impl st.env (c :: cs)).1
            ++ zeroRowsEvents
                (((bdProcessCalls impl st.env (c :: cs)).2.2.2.1).filter zeroRowsHit))
          { st with
            messages := st.messages
              ++ [Message.assistantCalls
                    ((c :: cs).map fun fc => ⟨fc.name, fc.args, fc.name⟩)]
              ++ bdDispatchMsgs impl st.env (c :: cs)
              ++ zeroRowsMsgs
                  (((bdProcessCalls impl st.env (c :: cs)).2.2.2.1).filter zeroRowsHit)
            anyToolsCalled := true
            iteration := st.iteration + 1
            calls := st.calls + 1
            queryCreated := st.queryCreated || (bdProcessCalls impl st.env (c :: cs)).2.2.1
            env := (bdProcessCalls impl st.env (c :: cs)).2.2.2.2 })
    ∧ (∀ (env : σ) (c : FunctionCall) (cs : List FunctionCall),
      bdDispatchMsgs impl env (c :: cs)
        = Message.tool c.name c.name (executeTool impl env c.name c.args).1
          :: bdDispatchMsgs impl (executeTool impl env c.name c.args).2 cs)
    ∧ (∀ (env : σ) (fcs : List FunctionCall),
      (bdDispatchMsgs impl env fcs).length = fcs.length)
    ∧ (∀ (env : σ) (c1 c2 : FunctionCall),
      bdDispatchMsgs impl env [c1, c2]
        = [Message.tool c1.name c1.name (executeTool impl env c1.name c1.args).1,
           Message.tool c2.name c2.name
             (executeTool impl (executeTool impl env c1.name c1.args).2
               c2.name c2.args).1]) := by
  refine ⟨?_, ?_, ?_, ?_, ?_, ?_, ?_, ?_⟩
  · intro maxIter st c cs txt
    simp [tlStep, blockedFinish, optListTruthy, tlDispatchMsgs]
  · intro env c cs
    simp [tlDispatchMsgs, tlProcessCalls]
  · intro env fcs
    induction fcs generalizing env with
    | nil => simp [tlDispatchMsgs, tlProcessCalls]
    | cons c cs ih => simp [tlDispatchMsgs, tlProcessCalls] at ih ⊢; exact ih _
  · intro env c1 c2
    simp [tlDispatchMsgs, tlProcessCalls]
  · intro stripMd maxIter st c cs txt
    simp [bdStep, blockedFinish, optListTruthy, bdDispatchMsgs]
  · intro env c cs
    simp [bdDispatchMsgs, bdProcessCalls]
  · intro env fcs
    induction fcs generalizing env with
    | nil => simp [bdDispatchMsgs, bdProcessCalls]
    | cons c cs ih => simp [bdDispatchMsgs, bdProcessCalls] at ih ⊢; exact ih _
  · intro env c1 c2
    simp [bdDispatchMsgs, bdProcessCalls]

/-- Helper: when every scripted reply is an unblocked tool-call turn, the
shared loop consumes its whole fuel, issuing one gateway call per iteration,
and its stream ends with the budget-exhaustion error. -/
theorem tlAux_budget {σ : Type} (impl : ToolImpl σ)
    (script : Nat → Except String LLMResponse) (maxIter : Nat)
    (hs : ∀ n, ∃ r, script n = .ok r ∧ blockedFinish r.finish_reason = false
        ∧ optListTruthy r.function_calls = true) :
    ∀ fuel st, (tlAux impl script maxIter fuel st).2.calls = st.calls + fuel
      ∧ (tlAux impl script maxIter fuel st).1.getLast?
          = some (.error ("Reached maximum iterations (" ++ toString maxIter ++ ").")) := by
  intro fuel
  induction fuel with
  | zero => intro st; simp [tlAux]
  | succ fuel ih =>
    intro st
    obtain ⟨r, hr, hb, hf⟩ := hs st.calls
    simp only [tlAux, tlStep, hr, hb, hf, Bool.false_eq_true, if_false, if_true]
    refine ⟨?_, ?_⟩
    · rw [(ih _).1]
      dsimp only
      omega
    · rw [List.getLast?_append, (ih _).2]
      rfl

/-- Helper: an unblocked tool-call reply makes the board loop body take its
function-call branch, emitting the turn events and continuing with the
turn successor state. -/
theorem bdStep_toolTurn {σ : Type} (impl : ToolImpl σ)
    (script : Nat → Except String LLMResponse) (stripMd : String → String)
    (maxIter : Nat) (st : BState σ) (r : LLMResponse)
    (hr : script st.calls = .ok r)
    (hb : blockedFinish r.finish_reason = false)
    (hf : optListTruthy r.function_calls = true) :
    bdStep impl script stripMd maxIter st
      = .next (bdToolTurnEvents impl maxIter st (r.function_calls.getD []))
          (bdToolTurnState impl st (r.function_calls.getD [])) := by
  simp only [bdStep, hr, hb, hf, Bool.false_eq_true, if_false, if_true,
    bdToolTurnEvents, bdToolTurnState]

/-- Helper: when every scripted reply is an unblocked tool-call turn, the
board while loop consumes its whole fuel, issuing one gateway call per
iteration and never setting `edited_code`, and exits through the loop
condition. -/
theorem bdAux_budget {σ : Type} (impl : ToolImpl σ)
    (script : Nat → Except String LLMResponse) (stripMd : String → String)
    (maxIter : Nat)
    (hs : ∀ n, ∃ r, script n = .ok r ∧ blockedFinish r.finish_reason = false
        ∧ optListTruthy r.function_calls = true) :
    ∀ fuel st, ∃ evs st',
      bdAux impl script stripMd maxIter fuel st = .exited evs st'
      ∧ st'.calls = st.calls + fuel ∧ st'.editedCode = st.editedCode := by
  intro fuel
  induction fuel with
  | zero => intro st; exact ⟨[], st, rfl, rfl, rfl⟩
  | succ fuel ih =>
    intro st
    obtain ⟨r, hr, hb, hf⟩ := hs st.calls
    have hstep := bdStep_toolTurn impl script stripMd maxIter st r hr hb hf
    obtain ⟨evs, st', heq, hc, he⟩ := ih (bdToolTurnState impl st (r.function_calls.getD []))
    refine ⟨bdToolTurnEvents impl maxIter st (r.function_calls.getD []) ++ evs, st',
      ?_, ?_, ?_⟩
    · simp only [bdAux, hstep, heq]
    · rw [hc]
      simp only [bdToolTurnState]
      omega
    · rw [he]
      simp only [bdToolTurnState]

/-- C7 amended: Against a model that always returns a tool call, a run with
iteration budget `N` issues exactly `N` gateway calls and never an
`(N+1)`-th; the shared tool loop then ends its stream with the
budget-exhaustion `error` event "Reached maximum iterations (N).", while
the board loop, whose `edited_code` is still unset after `N` tool-call
turns, ends its stream with the `error` event "Failed to generate code" —
an error event, but one signaling generation failure, not budget
exhaustion. -/
theorem C7_iteration_budget_exhaustion {σ : Type} (impl : ToolImpl σ) (N : Nat)
    (head : Nat → FunctionCall) (tail : Nat → List FunctionCall)
    (txt : Nat → Option String) (msgs : List Message) (env : σ)
    (stripMd : String → String) (validateFn : String → ValidationResult)
    (code : String) :
    (toolLoopRun impl
        (fun n => .ok { finish_reason := "TOOL_CALLS", text := txt n,
                        function_calls := some (head n :: tail n) })
        N msgs env).2.calls = N
    ∧ (toolLoopRun impl
        (fun n => .ok { finish_reason := "TOOL_CALLS", text := txt n,
                        function_calls := some (head n :: tail n) })
        N msgs env).1.getLast?
      = some (.error ("Reached maximum iterations (" ++ toString N ++ ")."))
    ∧ (boardRun impl
        (fun n => .ok { finish_reason := "TOOL_CALLS", text := txt n,
                        function_calls := some (head n :: tail n) })
        stripMd validateFn N code msgs env).2.calls = N
    ∧ (boardRun impl
        (fun n => .ok { finish_reason := "TOOL_CALLS", text := txt n,
                        function_calls := some (head n :: tail n) })
        stripMd validateFn N code msgs env).1.getLast?
      = some (.error "Failed to generate code") := by
  have h := tlAux_budget impl
    (fun n => .ok { finish_reason := "TOOL_CALLS", text := txt n,
                    function_calls := some (head n :: tail n) }) N
    (fun n => ⟨_, rfl, rfl, rfl⟩) N { messages := msgs, env := env }
  obtain ⟨evs, st', heq, hc, he⟩ := bdAux_budget impl
    (fun n => .ok { finish_reason := "TOOL_CALLS", text := txt n,
                    function_calls := some (head n :: tail n) }) stripMd N
    (fun n => ⟨_, rfl, rfl, rfl⟩) N { messages := msgs, env := env }
  refine ⟨by simpa [toolLoopRun] using h.1, by simpa [toolLoopRun] using h.2, ?_, ?_⟩
  · simp only [boardRun, heq]
    dsimp only at hc
    omega
  · simp only [boardRun, heq, bdPostLoop, he]
    rw [List.getLast?_append]
    rfl

/-- C7 counterexample, board half: with iteration budget 3 and a model that
always calls a tool, the board stream ends with the `error` event "Failed
to generate code" after exactly 3 gateway calls; no event of the stream
carries the budget-exhaustion message, and the emitted error differs from
it. -/
theorem C7_board_exhaustion_error_is_generic :
    (boardRun trivialImpl
        (fun _ => .ok { finish_reason := "TOOL_CALLS",
                        function_calls := some [{ name := "list_boards" }] })
        id (fun _ => { valid := true }) 3 "" [] ()).1
      = [Event.thinking "Analyzing your request...",
         Event.progress "Processing your request...",
         Event.toolCallStarted "list_boards" [],
         Event.toolResultOk "list_boards" {},
         Event.toolCallStarted "list_boards" [],
         Event.toolResultOk "list_boards" {},
         Event.toolCallStarted "list_boards" [],
         Event.toolResultOk "list_boards" {},
         Event.error "Failed to generate code"]
    ∧ (boardRun trivialImpl
        (fun _ => .ok { finish_reason := "TOOL_CALLS",
                        function_calls := some [{ name := "list_boards" }] })
        id (fun _ => { valid := true }) 3 "" [] ()).2.calls = 3
    ∧ Event.error "Failed to generate code"
        ≠ Event.error ("Reached maximum iterations (" ++ toString 3 ++ ").") :=
  ⟨rfl, rfl, by decide⟩

/-- Helper: the empty pattern occurs in every list. -/
theorem listHasInfix_nil [BEq α] (l : List α) : listHasInfix [] l = true := by
  cases l <;> simp [listHasInfix, List.isPrefixOf]

/-- Helper: an occurrence in `l1` is an occurrence in `l1 ++ l2`. -/
theorem listHasInfix_append_left [BEq α] [LawfulBEq α] (pat l1 l2 : List α)
    (h : listHasInfix pat l1 = true) : listHasInfix pat (l1 ++ l2) = true := by
  induction l1 with
  | nil =>
    simp only [listHasInfix, List.isEmpty_iff] at h
    subst h
    exact listHasInfix_nil _
  | cons x xs ih =>
    simp only [listHasInfix, List.cons_append, Bool.or_eq_true] at h ⊢
    rcases h with hp | hrest
    · exact Or.inl (List.isPrefixOf_iff_prefix.mpr
        ((List.isPrefixOf_iff_prefix.mp hp).trans (List.prefix_append _ _)))
    · exact Or.inr (ih hrest)

/-- Helper: a substring of `s` is a substring of `s ++ t`. -/
theorem strContains_append_left (s t pat : String)
    (h : strContains s pat = true) : strContains (s ++ t) pat = true := by
  have hd : (s ++ t).toList = s.toList ++ t.toList := String.data_append s t
  unfold strContains at h ⊢
  rw [hd]
  exact listHasInfix_append_left _ _ _ h

/-- C5 counterexample: The claim says a second consecutive empty
response terminates the loop with a user-facing `error` event. In the
shared tool loop (`_tool_loop_stream`, the loop the datastore and general
contexts run), the terminal event is instead of type `final` with message
"No response generated."; the stream contains no `error` event at all. -/
theorem C5_shared_loop_ends_with_final_not_error :
    (toolLoopRun trivialImpl (fun _ => .ok {}) 200 [] ()).1
      = [Event.final "" "No response generated."]
    ∧ (toolLoopRun trivialImpl (fun _ => .ok {}) 200 [] ()).1.map isErrorEvent
      = [false]
    ∧ (toolLoopRun trivialImpl (fun _ => .ok {}) 200 [] ()).2.messages
      = [Message.user "Use the available tools to help answer. Then provide a summary."] := by
  refine ⟨rfl, rfl, rfl⟩

/-- C5 amended: An empty first response (no text, no tool calls) is
nudged exactly once and the loop issues a second gateway call; a second
consecutive empty response terminates the run immediately — the board loop
with the user-facing `error` event "Could not understand your request…",
the shared tool loop with a `final` event "No response generated." — and in
both loops the terminal event follows exactly one injected nudge message
and exactly two gateway calls, so the loop never spins on empty
responses. -/
theorem C5_double_empty_escalates {σ : Type} (impl : ToolImpl σ)
    (msgs : List Message) (env : σ) (k : Nat)
    (rest : Nat → Except String LLMResponse) (stripMd : String → String)
    (validateFn : String → ValidationResult) (code : String) :
    toolLoopRun impl (scriptCons (.ok {}) (scriptCons (.ok {}) rest))
        (k + 2) msgs env
      = ([Event.final "" "No response generated."],
         { messages := msgs
             ++ [Message.user "Use the available tools to help answer. Then provide a summary."],
           anyToolsCalled := false, accumulated := "", continuationCount := 0,
           iteration := 2, calls := 2, env := env })
    ∧ boardRun impl (scriptCons (.ok {}) (scriptCons (.ok {}) rest))
        stripMd validateFn 200 code msgs env
      = ([Event.thinking "Analyzing your request...",
          Event.progress "Processing your request...",
          Event.progress "Gathering context...",
          Event.error "Could not understand your request. Please be more specific."],
         { messages := msgs
             ++ [Message.user ("Gather context by calling the appropriate tools: "
                  ++ "list_board_queries, get_query_code, etc. Then complete the request.")],
           anyToolsCalled := false, accumulated := "", continuationCount := 0,
           iteration := 2, calls := 2, queryCreated := false, editedCode := none,
           env := env }) := by
  constructor
  · rfl
  · rfl

/-- C6 counterexample: The claim says that on a blocked first reply
the stream consists of exactly one event. In the board stream the blocked
`error` event is preceded by the fixed preliminary `thinking`/`progress`
events, so the stream has three events, not one. -/
theorem C6_board_blocked_stream_is_not_one_event :
    (boardRun trivialImpl (fun _ => .ok { finish_reason := "SAFETY" })
        id (fun _ => { valid := true }) 200 "" [] ()).1
      = [Event.thinking "Analyzing your request...",
         Event.progress "Processing your request...",
         Event.error "Response was blocked (SAFETY). Try rephrasing."]
    ∧ (boardRun trivialImpl (fun _ => .ok { finish_reason := "SAFETY" })
        id (fun _ => { valid := true }) 200 "" [] ()).1.length ≠ 1 := by
  refine ⟨rfl, by decide⟩

/-- C6 amended: If the first reply of the model has a blocked finish reason
(`SAFETY`/`RECITATION`/`OTHER`), the loop emits exactly one event after the
blocked response — an `error` whose content contains "blocked" — and issues
no further gateway call: the stream of the shared tool loop is exactly that one
event, the board stream precedes it with its two fixed preliminary
events. -/
theorem C6_blocked_reply_single_error_and_stop {σ : Type} (impl : ToolImpl σ)
    (msgs : List Message) (env : σ) (k : Nat) (f : String)
    (txt : Option String) (fcs : Option (List FunctionCall))
    (rest : Nat → Except String LLMResponse) (stripMd : String → String)
    (validateFn : String → ValidationResult) (code : String)
    (hb : blockedFinish f = true) :
    toolLoopRun impl
        (scriptCons (.ok { text := txt, function_calls := fcs, finish_reason := f })
          rest) (k + 1) msgs env
      = ([Event.error ("Response was blocked (" ++ f ++ "). Try rephrasing.")],
         { messages := msgs, anyToolsCalled := false, accumulated := "",
           continuationCount := 0, iteration := 1, calls := 1, env := env })
    ∧ boardRun impl
        (scriptCons (.ok { text := txt, function_calls := fcs, finish_reason := f })
          rest) stripMd validateFn 200 code msgs env
      = ([Event.thinking "Analyzing your request...",
          Event.progress "Processing your request...",
          Event.error ("Response was blocked (" ++ f ++ "). Try rephrasing.")],
         { messages := msgs, anyToolsCalled := false, accumulated := "",
           continuationCount := 0, iteration := 1, calls := 1,
           queryCreated := false, editedCode := none, env := env })
    ∧ strContains ("Response was blocked (" ++ f ++ "). Try rephrasing.") "blocked"
      = true := by
  refine ⟨?_, ?_, ?_⟩
  · simp [toolLoopRun, tlAux, tlStep, scriptCons, hb]
  · simp [boardRun, bdAux, bdStep, scriptCons, hb, approachEvents]
  · have h1 : strContains "Response was blocked (" "blocked" = true := by decide
    exact strContains_append_left _ _ _ (strContains_append_left _ _ _ h1)

/-- Witness for C6 at finish reason `SAFETY`. -/
theorem C6_blocked_reply_single_error_and_stop_witness :
    blockedFinish "SAFETY" = true
    ∧ toolLoopRun trivialImpl
        (scriptCons (.ok { finish_reason := "SAFETY" }) (fun _ => .ok {}))
        200 [] ()
      = ([Event.error "Response was blocked (SAFETY). Try rephrasing."],
         { messages := [], anyToolsCalled := false, accumulated := "",
           continuationCount := 0, iteration := 1, calls := 1, env := () }) :=
  ⟨rfl,
   (C6_blocked_reply_single_error_and_stop trivialImpl [] () 199 "SAFETY"
      none none (fun _ => .ok {}) id (fun _ => { valid := true }) "" rfl).1⟩

/-- Helper: appending to the empty string is the identity. -/
theorem str_empty_append (s : String) : "" ++ s = s := by
  obtain ⟨ds⟩ := s
  rfl

/-- Helper: a concatenation with a nonempty left part is nonempty. -/
theorem strAppend_ne_empty_left (s t : String) (h : s ≠ "") : s ++ t ≠ "" := by
  intro he
  apply h
  have hd : s.data ++ t.data = [] := by
    have := congrArg String.data he
    rwa [String.data_append] at this
  have h2 : s.data = [] := (List.append_eq_nil.mp hd).1
  obtain ⟨ds⟩ := s
  simp only at h2
  subst h2
  rfl

/-- C3: A `MAX_TOKENS` reply with partial text `t1` followed by a plain
`STOP` reply with text `t2` and no tool calls terminates the loop after
exactly two gateway calls with the concatenation `t1 ++ t2` in call order:
the `final` message of the shared tool loop is `strip(t1 ++ t2)`, and in the
board loop the accumulated prefix is prepended before any validation — the
text handed to `strip_markdown_code_block` and then to `validate_html` is
exactly `t1 ++ t2` (after the outer `strip()`), and the artefact carried by
the `final` event is built from it. -/
theorem C3_truncated_then_stop_concatenates {σ : Type} (impl : ToolImpl σ)
    (msgs : List Message) (env : σ) (t1 t2 : String) (k : Nat)
    (rest : Nat → Except String LLMResponse) (stripMd : String → String)
    (validateFn : String → ValidationResult) (code : String)
    (h1 : t1 ≠ "")
    (hhtml : (stripMd (strTrim (t1 ++ t2)) != ""
        && (strContains (stripMd (strTrim (t1 ++ t2))) "<!DOCTYPE"
            || strContains (strToLower (stripMd (strTrim (t1 ++ t2)))) "<html")) = true)
    (hexp : (decide ((stripMd (strTrim (t1 ++ t2))).length < 100)
        || !(strContains (stripMd (strTrim (t1 ++ t2))) "<")) = false) :
    toolLoopRun impl
        (scriptCons (.ok { text := some t1, finish_reason := "MAX_TOKENS" })
          (scriptCons (.ok { text := some t2, finish_reason := "STOP" }) rest))
        (k + 2) msgs env
      = ([Event.final "" (strTrim (t1 ++ t2))],
         { messages := msgs ++ [Message.assistant t1, Message.user "Continue"],
           anyToolsCalled := false, accumulated := t1, continuationCount := 1,
           iteration := 2, calls := 2, env := env })
    ∧ boardRun impl
        (scriptCons (.ok { text := some t1, finish_reason := "MAX_TOKENS" })
          (scriptCons (.ok { text := some t2, finish_reason := "STOP" }) rest))
        stripMd validateFn (k + 8) code msgs env
      = ([Event.thinking "Analyzing your request...",
          Event.progress "Processing your request...",
          Event.progress "Generating long response, please wait..."]
          ++ validationTail code (stripMd (strTrim (t1 ++ t2)))
              (validateFn (stripMd (strTrim (t1 ++ t2)))),
         { messages := msgs ++ [Message.assistant t1, Message.user "Continue"],
           anyToolsCalled := false, accumulated := t1, continuationCount := 1,
           iteration := 2, calls := 2, queryCreated := false,
           editedCode := some (stripMd (strTrim (t1 ++ t2))), env := env }) := by
  have hne2 : t1 ++ t2 ≠ "" := strAppend_ne_empty_left t1 t2 h1
  have e3 : decide (1 < k + 2) = true := decide_eq_true (by omega)
  have e4 : decide (1 < k + 8) = true := decide_eq_true (by omega)
  have e5 : decide (2 ≥ k + 8) = false := decide_eq_false (by omega)
  have hed : stripMd (strTrim (t1 ++ t2)) ≠ "" := by
    have hh := (Bool.and_eq_true _ _ |>.mp hhtml).1
    simpa using hh
  constructor
  · simp [toolLoopRun, tlAux, tlStep, scriptCons, blockedFinish, optListTruthy,
      str_empty_append, h1, hne2, e3]
  · simp [boardRun, bdAux, bdStep, bdPostLoop, scriptCons, blockedFinish,
      optListTruthy, str_empty_append, h1, hne2, hhtml, hexp, hed, e4, e5,
      approachEvents, genLongEvents, completedEvents]

/-- Witness for C3: the two fragments assemble into an HTML document that
passes the board shape checks; `stripMd` is instantiated with the identity
and `validateFn` with a constant verdict. -/
theorem C3_truncated_then_stop_concatenates_witness :
    ("<!DOCTYPE html><html><head><title>Board</title></head><body><div class=3>" : String) ≠ ""
    ∧ toolLoopRun trivialImpl
        (scriptCons (.ok { text := some "<!DOCTYPE html><html><head><title>Board</title></head><body><div class=3>",
                           finish_reason := "MAX_TOKENS" })
          (scriptCons (.ok { text := some "widgets here</div></body></html>",
                             finish_reason := "STOP" })
            (fun _ => .ok {})))
        200 [] ()
      = ([Event.final ""
            "<!DOCTYPE html><html><head><title>Board</title></head><body><div class=3>widgets here</div></body></html>"],
         { messages := [Message.assistant "<!DOCTYPE html><html><head><title>Board</title></head><body><div class=3>",
             Message.user "Continue"],
           anyToolsCalled := false,
           accumulated := "<!DOCTYPE html><html><head><title>Board</title></head><body><div class=3>",
           continuationCount := 1, iteration := 2, calls := 2, env := () }) := by
  have h := C3_truncated_then_stop_concatenates trivialImpl [] ()
    "<!DOCTYPE html><html><head><title>Board</title></head><body><div class=3>"
    "widgets here</div></body></html>" 198 (fun _ => .ok {}) id
    (fun _ => { valid := true }) "" (by decide) (by decide) (by decide)
  exact ⟨by decide, by simpa using h.1⟩

/-! Event-ordering lemmas (for C9): terminal events are last -/

theorem noTerminal_append (a b : List Event) :
    noTerminal (a ++ b) = (noTerminal a && noTerminal b) := by
  simp [noTerminal, List.all_append]

theorem endsTerminal_single (e : Event) (h : e.isTerminal = true) :
    endsTerminal [e] :=
  ⟨[], e, rfl, rfl, h⟩

theorem endsTerminal_append (p l : List Event) (hp : noTerminal p = true)
    (hl : endsTerminal l) : endsTerminal (p ++ l) := by
  obtain ⟨pre, e, rfl, hpre, he⟩ := hl
  exact ⟨p ++ pre, e, by rw [List.append_assoc],
    by rw [noTerminal_append, hp, hpre]; rfl, he⟩

theorem noTerminal_dropLast (l : List Event) (h : noTerminal l = true) :
    noTerminal l.dropLast = true := by
  simp only [noTerminal, List.all_eq_true] at h ⊢
  exact fun x hx => h x (List.dropLast_subset l hx)

theorem noTerminal_dropLast_of_append (p l : List Event)
    (hp : noTerminal p = true) (hl : endsTerminal l ∨ noTerminal l = true) :
    noTerminal (p ++ l).dropLast = true := by
  rcases hl with ⟨pre, e, rfl, hpre, _⟩ | hno
  · rw [← List.append_assoc, List.dropLast_concat, noTerminal_append, hp, hpre]
    rfl
  · exact noTerminal_dropLast _ (by rw [noTerminal_append, hp, hno]; rfl)

/-- The events of a tool-call turn (shared loop) are all non-terminal. -/
theorem tlProcessCalls_noTerminal {σ : Type} (impl : ToolImpl σ)
    (env : σ) (fcs : List FunctionCall) :
    noTerminal (tlProcessCalls impl env fcs).1 = true := by
  induction fcs generalizing env with
  | nil => rfl
  | cons fc rest ih =>
    simp only [tlProcessCalls, noTerminal_append, ih, Bool.and_true]
    simp only [noTerminal, List.all_append, List.all_cons, List.all_nil]
    split <;> split <;> rfl

/-- A `return` from a shared-loop iteration carries exactly one terminal
event, at the end of its batch. -/
theorem tlStep_done_endsTerminal {σ : Type} (impl : ToolImpl σ)
    (script : Nat → Except String LLMResponse) (maxIter : Nat) (st : TLState σ)
    (evs : List Event) (st' : TLState σ)
    (h : tlStep impl script maxIter st = .done evs st') : endsTerminal evs := by
  unfold tlStep at h
  dsimp only at h
  cases hs : script st.calls <;> rw [hs] at h <;> dsimp only at h
  · cases h
    exact endsTerminal_single _ rfl
  · repeat' split at h
    all_goals cases h
    all_goals exact endsTerminal_single _ rfl

/-- A `continue` from a shared-loop iteration emits only non-terminal
events. -/
theorem tlStep_next_noTerminal {σ : Type} (impl : ToolImpl σ)
    (script : Nat → Except String LLMResponse) (maxIter : Nat) (st : TLState σ)
    (evs : List Event) (st' : TLState σ)
    (h : tlStep impl script maxIter st = .next evs st') : noTerminal evs = true := by
  unfold tlStep at h
  dsimp only at h
  cases hs : script st.calls <;> rw [hs] at h <;> dsimp only at h
  · cases h
  · repeat' split at h
    all_goals cases h
    all_goals first
      | exact tlProcessCalls_noTerminal ..
      | rfl

/-- The stream of the shared loop always ends with a terminal event and emits no
event after it. -/
theorem tlAux_endsTerminal {σ : Type} (impl : ToolImpl σ)
    (script : Nat → Except String LLMResponse) (maxIter : Nat) :
    ∀ fuel st, endsTerminal (tlAux impl script maxIter fuel st).1 := by
  intro fuel
  induction fuel with
  | zero => intro st; exact endsTerminal_single _ rfl
  | succ fuel ih =>
    intro st
    cases hstep : tlStep impl script maxIter st with
    | done evs st' =>
      simpa only [tlAux, hstep] using
        tlStep_done_endsTerminal impl script maxIter st evs st' hstep
    | next evs st' =>
      simp only [tlAux, hstep]
      exact endsTerminal_append _ _
        (tlStep_next_noTerminal impl script maxIter st evs st' hstep) (ih st')

/-- The events of a tool-call turn (board loop) are all non-terminal. -/
theorem bdProcessCalls_noTerminal {σ : Type} (impl : ToolImpl σ)
    (env : σ) (fcs : List FunctionCall) :
    noTerminal (bdProcessCalls impl env fcs).1 = true := by
  induction fcs generalizing env with
  | nil => rfl
  | cons fc rest ih =>
    simp only [bdProcessCalls, noTerminal_append, ih, Bool.and_true]
    simp only [noTerminal, List.all_append, List.all_cons, List.all_nil]
    repeat' split
    all_goals rfl

theorem noTerminal_approachEvents (iter maxIter : Nat) :
    noTerminal (approachEvents iter maxIter) = true := by
  unfold approachEvents; split <;> rfl

theorem noTerminal_genLongEvents (cc : Nat) :
    noTerminal (genLongEvents cc) = true := by
  unfold genLongEvents; split <;> rfl

theorem noTerminal_completedEvents (acc : Bool) (cc : Nat) :
    noTerminal (completedEvents acc cc) = true := by
  unfold completedEvents; split <;> rfl

theorem noTerminal_zeroRowsEvents (zr : List LastResult) :
    noTerminal (zeroRowsEvents zr) = true := by
  unfold zeroRowsEvents; split <;> rfl

/-- A `return` from a board-loop iteration ends its batch with the only
terminal event. -/
theorem bdStep_done_endsTerminal {σ : Type} (impl : ToolImpl σ)
    (script : Nat → Except String LLMResponse) (stripMd : String → String)
    (maxIter : Nat) (st : BState σ) (evs : List Event) (st' : BState σ)
    (h : bdStep impl script stripMd maxIter st = .done evs st') :
    endsTerminal evs := by
  unfold bdStep at h
  dsimp only at h
  cases hs : script st.calls <;> rw [hs] at h <;> dsimp only at h
  · cases h
    exact endsTerminal_append _ _ (noTerminal_approachEvents ..)
      (endsTerminal_single _ rfl)
  · repeat' split at h
    all_goals cases h
    all_goals first
      | exact endsTerminal_append _ _ (noTerminal_approachEvents ..)
          (endsTerminal_single _ rfl)
      | · rw [List.append_assoc]
          refine endsTerminal_append _ _ (noTerminal_approachEvents ..) ?_
          exact endsTerminal_append _ _ (noTerminal_completedEvents ..)
            (endsTerminal_single _ rfl)

/-- A `continue` from a board-loop iteration emits only non-terminal
events. -/
theorem bdStep_next_noTerminal {σ : Type} (impl : ToolImpl σ)
    (script : Nat → Except String LLMResponse) (stripMd : String → String)
    (maxIter : Nat) (st : BState σ) (evs : List Event) (st' : BState σ)
    (h : bdStep impl script stripMd maxIter st = .next evs st') :
    noTerminal evs = true := by
  unfold bdStep at h
  dsimp only at h
  cases hs : script st.calls <;> rw [hs] at h <;> dsimp only at h
  · cases h
  · repeat' split at h
    all_goals cases h
    all_goals simp only [noTerminal_append, noTerminal_approachEvents,
      noTerminal_genLongEvents, noTerminal_completedEvents,
      noTerminal_zeroRowsEvents, bdProcessCalls_noTerminal, Bool.and_true,
      Bool.true_and]
    all_goals rfl

/-- A `break` from a board-loop iteration emits only non-terminal events. -/
theorem bdStep_broke_noTerminal {σ : Type} (impl : ToolImpl σ)
    (script : Nat → Except String LLMResponse) (stripMd : String → String)
    (maxIter : Nat) (st : BState σ) (evs : List Event) (st' : BState σ)
    (h : bdStep impl script stripMd maxIter st = .broke evs st') :
    noTerminal evs = true := by
  unfold bdStep at h
  dsimp only at h
  cases hs : script st.calls <;> rw [hs] at h <;> dsimp only at h
  · cases h
  · repeat' split at h
    all_goals cases h
    all_goals simp only [noTerminal_append, noTerminal_approachEvents,
      noTerminal_completedEvents, Bool.and_true, Bool.true_and]

/-- The board while loop: a `return` batch ends with its only terminal
event; loop exhaustion and `break` batches are terminal-free. -/
theorem bdAux_spec {σ : Type} (impl : ToolImpl σ)
    (script : Nat → Except String LLMResponse) (stripMd : String → String)
    (maxIter : Nat) :
    ∀ fuel st,
      (match bdAux impl script stripMd maxIter fuel st with
       | .returned evs _ => endsTerminal evs
       | .exited evs _ => noTerminal evs = true
       | .broke evs _ => noTerminal evs = true) := by
  intro fuel
  induction fuel with
  | zero => intro st; rfl
  | succ fuel ih =>
    intro st
    cases hstep : bdStep impl script stripMd maxIter st with
    | done evs st' =>
      simpa only [bdAux, hstep] using
        bdStep_done_endsTerminal impl script stripMd maxIter st evs st' hstep
    | broke evs st' =>
      simpa only [bdAux, hstep] using
        bdStep_broke_noTerminal impl script stripMd maxIter st evs st' hstep
    | next evs st' =>
      have hn := bdStep_next_noTerminal impl script stripMd maxIter st evs st' hstep
      have hrec := ih st'
      simp only [bdAux, hstep]
      cases hr : bdAux impl script stripMd maxIter fuel st' with
      | returned r st'' =>
        rw [hr] at hrec
        dsimp only at hrec ⊢
        exact endsTerminal_append _ _ hn hrec
      | exited r st'' =>
        rw [hr] at hrec
        dsimp only at hrec ⊢
        rw [noTerminal_append, hn, hrec]
        rfl
      | broke r st'' =>
        rw [hr] at hrec
        dsimp only at hrec ⊢
        rw [noTerminal_append, hn, hrec]
        rfl

theorem noTerminal_map_progress (l : List String) (f : String → String) :
    noTerminal (l.map fun s => Event.progress (f s)) = true := by
  induction l with
  | nil => rfl
  | cons a t ih =>
    simp only [List.map_cons, noTerminal, List.all_cons, Event.isTerminal,
      Bool.not_false, Bool.true_and]
    exact ih

/-- The validation-phase tail ends with its only terminal event. -/
theorem validationTail_endsTerminal (code ed : String) (v : ValidationResult) :
    endsTerminal (validationTail code ed v) := by
  unfold validationTail
  refine ⟨_, _, rfl, ?_, rfl⟩
  simp only [noTerminal_append, noTerminal_map_progress, Bool.and_true, Bool.true_and]
  have h1 : noTerminal (if (code != "") = true then [Event.codeDelta code ed] else [])
      = true := by split <;> rfl
  rw [h1, Bool.and_true]
  rfl

/-- The post-loop section ends with its only terminal event. -/
theorem bdPostLoop_endsTerminal {σ : Type} (code : String) (maxIter : Nat)
    (validateFn : String → ValidationResult) (st : BState σ) :
    endsTerminal (bdPostLoop code maxIter validateFn st) := by
  unfold bdPostLoop
  split
  · exact endsTerminal_single _ rfl
  · split
    · exact endsTerminal_single _ rfl
    · refine endsTerminal_append _ _ ?_ (validationTail_endsTerminal ..)
      split <;> rfl

/-- The board stream always ends with a terminal event and emits no event
after it. -/
theorem boardRun_endsTerminal {σ : Type} (impl : ToolImpl σ)
    (script : Nat → Except String LLMResponse) (stripMd : String → String)
    (validateFn : String → ValidationResult) (maxIter : Nat) (code : String)
    (messages : List Message) (env : σ) :
    endsTerminal (boardRun impl script stripMd validateFn maxIter code messages env).1 := by
  unfold boardRun
  have h := bdAux_spec impl script stripMd maxIter maxIter
    { messages := messages, env := env }
  cases hr : bdAux impl script stripMd maxIter maxIter
      { messages := messages, env := env } with
  | returned evs st =>
    rw [hr] at h
    dsimp only at h ⊢
    exact endsTerminal_append _ _ rfl h
  | exited evs st =>
    rw [hr] at h
    dsimp only at h ⊢
    rw [List.append_assoc]
    refine endsTerminal_append _ _ rfl ?_
    exact endsTerminal_append _ _ h (bdPostLoop_endsTerminal ..)
  | broke evs st =>
    rw [hr] at h
    dsimp only at h ⊢
    rw [List.append_assoc]
    refine endsTerminal_append _ _ rfl ?_
    exact endsTerminal_append _ _ h (bdPostLoop_endsTerminal ..)

/-- The events of a tool-call turn (exploration loop) are all
non-terminal. -/
theorem expProcessCalls_noTerminal {σ : Type} (impl : ToolImpl σ)
    (env : σ) (fcs : List FunctionCall) :
    noTerminal (expProcessCalls impl env fcs).1 = true := by
  induction fcs generalizing env with
  | nil => rfl
  | cons fc rest ih =>
    simp only [expProcessCalls, noTerminal_append, ih, Bool.and_true]
    simp only [noTerminal, List.all_append, List.all_cons, List.all_nil]
    repeat' split
    all_goals rfl

/-- Every exploration inner-loop iteration emits only non-terminal events
(raises carry their message out of band). -/
theorem expStep_raised_noTerminal {σ : Type} (e : ExpEnv σ) (st : ExpILState σ)
    (evs : List Event) (m : String) (st2 : ExpILState σ)
    (h : expStep e st = .raised evs m st2) : noTerminal evs = true := by
  unfold expStep at h
  dsimp only at h
  cases hs : e.script st.calls <;> rw [hs] at h <;> dsimp only at h
  · cases h
    exact noTerminal_approachEvents ..
  · repeat' split at h
    all_goals cases h
    all_goals simp only [noTerminal_append, noTerminal_approachEvents,
      noTerminal_completedEvents, Bool.and_true, Bool.true_and]

theorem expStep_code_noTerminal {σ : Type} (e : ExpEnv σ) (st : ExpILState σ)
    (evs : List Event) (g : String) (st2 : ExpILState σ)
    (h : expStep e st = .code evs g st2) : noTerminal evs = true := by
  unfold expStep at h
  dsimp only at h
  cases hs : e.script st.calls <;> rw [hs] at h <;> dsimp only at h
  · cases h
  · repeat' split at h
    all_goals cases h
    all_goals simp only [noTerminal_append, noTerminal_approachEvents,
      noTerminal_completedEvents, Bool.and_true, Bool.true_and]

theorem expStep_next_noTerminal {σ : Type} (e : ExpEnv σ) (st : ExpILState σ)
    (evs : List Event) (st2 : ExpILState σ)
    (h : expStep e st = .next evs st2) : noTerminal evs = true := by
  unfold expStep at h
  dsimp only at h
  cases hs : e.script st.calls <;> rw [hs] at h <;> dsimp only at h
  · cases h
  · repeat' split at h
    all_goals cases h
    all_goals simp only [noTerminal_append, noTerminal_approachEvents,
      noTerminal_genLongEvents, noTerminal_completedEvents,
      expProcessCalls_noTerminal, Bool.and_true, Bool.true_and]
    all_goals rfl

/-- The exploration inner loop emits only non-terminal events. -/
theorem expInnerAux_noTerminal {σ : Type} (e : ExpEnv σ) :
    ∀ fuel st,
      (match expInnerAux e fuel st with
       | .raised evs _ _ _ => noTerminal evs = true
       | .code evs _ _ _ => noTerminal evs = true) := by
  intro fuel
  induction fuel with
  | zero => intro st; rfl
  | succ fuel ih =>
    intro st
    cases hs : expStep e st with
    | raised evs m st2 =>
      simpa only [expInnerAux, hs] using expStep_raised_noTerminal e st evs m st2 hs
    | code evs g st2 =>
      simpa only [expInnerAux, hs] using expStep_code_noTerminal e st evs g st2 hs
    | next evs st2 =>
      have hstep := expStep_next_noTerminal e st evs st2 hs
      have hrec := ih st2
      simp only [expInnerAux, hs]
      cases hr : expInnerAux e fuel st2 with
      | raised r m c en =>
        rw [hr] at hrec
        dsimp only at hrec ⊢
        rw [noTerminal_append, hstep, hrec]
        rfl
      | code r g c en =>
        rw [hr] at hrec
        dsimp only at hrec ⊢
        rw [noTerminal_append, hstep, hrec]
        rfl

theorem endsTerminal_pair (a b : Event) (ha : a.isTerminal = false)
    (hb : b.isTerminal = true) : endsTerminal [a, b] :=
  ⟨[a], b, rfl, by simp [noTerminal, ha], hb⟩

/-- One exploration attempt that terminates the stream ends with its only
terminal event. -/
theorem expAttemptRun_finished_endsTerminal {σ : Type} (e : ExpEnv σ)
    (attempt calls : Nat) (env : σ) (evs : List Event)
    (h : expAttemptRun e attempt calls env = .finished evs) :
    endsTerminal evs := by
  unfold expAttemptRun at h
  have hn := expInnerAux_noTerminal e e.maxIter { calls := calls, env := env }
  cases hi : expInnerAux e e.maxIter { calls := calls, env := env } <;>
    rw [hi] at h hn <;> dsimp only at h hn
  all_goals repeat' split at h
  all_goals cases h
  all_goals
    refine endsTerminal_append _ _ ?_ ?_ <;>
      first
        | (simp only [noTerminal_append, hn, Bool.and_true, Bool.true_and]
           rfl)
        | exact endsTerminal_pair _ _ rfl rfl
        | exact endsTerminal_single _ rfl

/-- One exploration attempt that falls through to the next attempt emits
only non-terminal events. -/
theorem expAttemptRun_retry_noTerminal {σ : Type} (e : ExpEnv σ)
    (attempt calls : Nat) (env : σ) (evs : List Event) (calls' : Nat) (env' : σ)
    (h : expAttemptRun e attempt calls env = .retry evs calls' env') :
    noTerminal evs = true := by
  unfold expAttemptRun at h
  have hn := expInnerAux_noTerminal e e.maxIter { calls := calls, env := env }
  cases hi : expInnerAux e e.maxIter { calls := calls, env := env } <;>
    rw [hi] at h hn <;> dsimp only at h hn
  all_goals repeat' split at h
  all_goals cases h
  all_goals
    simp only [noTerminal_append, hn, Bool.and_true, Bool.true_and]
  all_goals rfl

theorem expSchemaEvents_noTerminal {σ : Type} (e : ExpEnv σ) :
    noTerminal (expSchemaEvents e) = true := by
  unfold expSchemaEvents
  repeat' split
  all_goals rfl

theorem expContextEvents_noTerminal {σ : Type} (e : ExpEnv σ) :
    noTerminal (expContextEvents e) = true := by
  unfold expContextEvents
  repeat' split
  all_goals rfl

/-- The exploration attempt loop either ends with its only terminal event
or — when every attempt falls through — contains no terminal event at
all. -/
theorem expAttempts_spec {σ : Type} (e : ExpEnv σ) :
    ∀ remaining attempt calls env,
      endsTerminal (expAttempts e remaining attempt calls env)
      ∨ noTerminal (expAttempts e remaining attempt calls env) = true := by
  intro remaining
  induction remaining with
  | zero => intro attempt calls env; right; rfl
  | succ remaining ih =>
    intro attempt calls env
    cases ha : expAttemptRun e attempt calls env with
    | finished evs =>
      simp only [expAttempts, ha]
      exact Or.inl (expAttemptRun_finished_endsTerminal e attempt calls env evs ha)
    | retry evs calls' env' =>
      have hr := expAttemptRun_retry_noTerminal e attempt calls env evs calls' env' ha
      simp only [expAttempts, ha]
      rcases ih (attempt + 1) calls' env' with hend | hno
      · exact Or.inl (endsTerminal_append _ _ hr hend)
      · right
        rw [noTerminal_append, hr, hno]
        rfl

/-- The exploration stream never emits an event after a `final` or `error`
event (though it may end without one, see the C9 counterexample). -/
theorem explorationRun_noTerminal_dropLast {σ : Type} (e : ExpEnv σ) (env : σ) :
    noTerminal (explorationRun e env).dropLast = true := by
  unfold explorationRun
  apply noTerminal_dropLast_of_append
  · rw [noTerminal_append, expSchemaEvents_noTerminal, expContextEvents_noTerminal]
    rfl
  · exact expAttempts_spec e maxAttempts 1 0 env

/-- C9 counterexample: The claim says an event of type `final` or
`error` is always the last event of the stream of a loop. In the exploration
loop with a datastore selected, no query id, and no board row to attach a
temporary test query to (`gapExpEnv`), every attempt generates code, starts
the test phase, fails to create the temporary query and silently falls
through; after the fifth attempt the generator ends. The last
event is a `progress` event and the stream contains no `final` or `error`
event at all. -/
theorem C9_exploration_stream_can_end_without_terminal :
    (explorationRun gapExpEnv ()).getLast?
      = some (Event.progress "  Creating temporary test query...")
    ∧ noTerminal (explorationRun gapExpEnv ()) = true
    ∧ (explorationRun gapExpEnv ()).length = 37 := by
  refine ⟨rfl, rfl, rfl⟩

/-- C9 amended: The event stream of every loop is emitted in
chronological order and no event of any type follows a `final` event, a
blocked `error`, or a budget-exhaustion `error`: in the shared tool loop
and in the board loop the stream always ends with exactly one terminal
(`final`/`error`) event; the exploration stream never emits an event after
a terminal one, but an execution that cannot create its temporary test
query ends without any terminal event. -/
theorem C9_terminal_events_are_last :
    (∀ (σ : Type) (impl : ToolImpl σ) (script : Nat → Except String LLMResponse)
        (maxIter : Nat) (messages : List Message) (env : σ),
      endsTerminal (toolLoopRun impl script maxIter messages env).1)
    ∧ (∀ (σ : Type) (impl : ToolImpl σ) (script : Nat → Except String LLMResponse)
        (stripMd : String → String) (validateFn : String → ValidationResult)
        (maxIter : Nat) (code : String) (messages : List Message) (env : σ),
      endsTerminal (boardRun impl script stripMd validateFn maxIter code messages env).1)
    ∧ (∀ (σ : Type) (e : ExpEnv σ) (env : σ),
      noTerminal (explorationRun e env).dropLast = true) :=
  ⟨fun _ impl script maxIter messages env =>
      tlAux_endsTerminal impl script maxIter maxIter { messages := messages, env := env },
   fun _ impl script stripMd validateFn maxIter code messages env =>
      boardRun_endsTerminal impl script stripMd validateFn maxIter code messages env,
   fun _ e env => explorationRun_noTerminal_dropLast e env⟩

end Nubi
